import Mathlib

/-!
Verification of the comphapt sand/haptics simulation (src/main.cpp).

The simulation core (`SandSimulation`) and the haptic coupling
(`HapticSystem`) are shallowly embedded: the row-major cell grid becomes a
`List Cell` indexed exactly as the C++ `m_grid`, machine `int` coordinates
become `Int`, and `float` quantities become `ℚ` (exact arithmetic standing
in for IEEE floats).  The ambient `rand() % 2 == 0` tie-break source becomes
an explicit boolean stream `rng : Nat → Bool` consulted at an incrementing
counter, so every randomized tick is a deterministic function of the stream.
-/

namespace Comphapt

inductive MaterialType where
  | Empty
  | Sand
  | WetSand
  | Water
  | Count
deriving DecidableEq

structure Cell where
  type : MaterialType
  soak : Int
deriving DecidableEq

def SOAK_THRESHOLD : Int := 2

/-- The synthetic boundary cell `m_boundaryCell = { MaterialType::Sand, 0 }`. -/
def boundaryCell : Cell := { type := MaterialType.Sand, soak := 0 }

/-- The value a freshly cleared grid slot holds: `{ MaterialType::Empty, 0 }`. -/
def defaultCell : Cell := { type := MaterialType.Empty, soak := 0 }

/-- State of `SandSimulation`: dimensions plus the row-major cell vector. -/
structure Sim where
  width : Int
  height : Int
  grid : List Cell
deriving DecidableEq

def IsInBounds (s : Sim) (x y : Int) : Bool :=
  decide (0 ≤ x) && decide (x < s.width) && decide (0 ≤ y) && decide (y < s.height)

def GetIndex (s : Sim) (x y : Int) : Int :=
  y * s.width + x

def Get (s : Sim) (x y : Int) : Cell :=
  if IsInBounds s x y then s.grid.getD (GetIndex s x y).toNat defaultCell
  else boundaryCell

def Set (s : Sim) (x y : Int) (t : MaterialType) (soak : Int) : Sim :=
  if IsInBounds s x y then
    { s with grid := s.grid.set (GetIndex s x y).toNat { type := t, soak := soak } }
  else s

def Move (s : Sim) (x1 y1 x2 y2 : Int) : Sim × Bool :=
  if ¬ (IsInBounds s x1 y1 && IsInBounds s x2 y2) then (s, false)
  else if (s.grid.getD (GetIndex s x2 y2).toNat defaultCell).type ≠ MaterialType.Empty then
    (s, false)
  else
    let c := s.grid.getD (GetIndex s x1 y1).toNat defaultCell
    ({ s with grid := (s.grid.set (GetIndex s x2 y2).toNat c).set (GetIndex s x1 y1).toNat defaultCell },
     true)

def Swap (s : Sim) (x1 y1 x2 y2 : Int) : Sim × Bool :=
  if ¬ (IsInBounds s x1 y1 && IsInBounds s x2 y2) then (s, false)
  else
    let c1 := s.grid.getD (GetIndex s x1 y1).toNat defaultCell
    let c2 := s.grid.getD (GetIndex s x2 y2).toNat defaultCell
    ({ s with grid := (s.grid.set (GetIndex s x1 y1).toNat c2).set (GetIndex s x2 y2).toNat c1 },
     true)

/-- The closed integer interval `[lo, hi]` as a list, empty when `hi < lo`;
models a C++ `for (i = lo; i <= hi; ++i)` loop. -/
def intRange (lo hi : Int) : List Int :=
  (List.range (hi + 1 - lo).toNat).map (fun i : Nat => lo + (i : Int))

/-- Accumulator body of the `GetResistance` double loop. -/
def resCellAdd (s : Sim) (cx cy r2 : ℚ) (acc : ℚ) (p : Int × Int) : ℚ :=
  if IsInBounds s p.1 p.2 = false then acc
  else
    let dx : ℚ := (p.1 : ℚ) - cx
    let dy : ℚ := (p.2 : ℚ) - cy
    if dx * dx + dy * dy ≤ r2 then
      let cell := Get s p.1 p.2
      if cell.type = MaterialType.Sand then acc + 0.1
      else if cell.type = MaterialType.WetSand then acc + ((cell.soak : ℚ) * 0.02 + 0.1)
      else if cell.type = MaterialType.Water then acc + 0.02
      else acc
    else acc

def GetResistance (s : Sim) (cx cy radius : ℚ) : ℚ :=
  let r2 := radius * radius
  let minX := Int.floor (cx - radius)
  let maxX := Int.ceil (cx + radius)
  let minY := Int.floor (cy - radius)
  let maxY := Int.ceil (cy + radius)
  ((intRange minY maxY).flatMap (fun y => (intRange minX maxX).map (fun x => (x, y)))).foldl
    (resCellAdd s cx cy r2) 0

/-- Perimeter cells visited by `FindNearestEmpty` at ring radius `r`
(`dy` outer, `dx` inner, interior skipped via `abs` test). -/
def ringCandidates (tx ty r : Int) : List (Int × Int) :=
  (intRange (-r) r).flatMap (fun dy =>
    (intRange (-r) r).filterMap (fun dx =>
      if dx.natAbs ≠ r.natAbs ∧ dy.natAbs ≠ r.natAbs then none
      else some (tx + dx, ty + dy)))

def FindNearestEmpty (s : Sim) (targetX targetY : Int) (maxRadius : Nat) : Int × Int :=
  if IsInBounds s targetX targetY && (Get s targetX targetY).type == MaterialType.Empty then
    (targetX, targetY)
  else
    match ((List.range maxRadius).flatMap
        (fun i => ringCandidates targetX targetY ((i : Int) + 1))).find?
        (fun p => IsInBounds s p.1 p.2 && (Get s p.1 p.2).type == MaterialType.Empty) with
    | some p => p
    | none => (-1, -1)

/-- The fixed neighbor offsets of `TryWetSand`, in source order. -/
def wetOffsets : List (Int × Int) :=
  [(0, 1), (1, 0), (-1, 0), (0, -1), (1, 1), (-1, 1), (1, -1), (-1, -1), (0, 2)]

def tryWetSandGo (wx wy : Int) (s : Sim) : List (Int × Int) → Sim × Bool
  | [] => (s, false)
  | o :: rest =>
    let sx := wx + o.1
    let sy := wy + o.2
    if IsInBounds s sx sy = false then tryWetSandGo wx wy s rest
    else
      let cell := Get s sx sy
      if cell.type = MaterialType.Sand then
        (Set (Set s sx sy MaterialType.WetSand 1) wx wy MaterialType.Empty 0, true)
      else if cell.type = MaterialType.WetSand ∧ cell.soak < SOAK_THRESHOLD then
        (Set (Set s sx sy MaterialType.WetSand (cell.soak + 1)) wx wy MaterialType.Empty 0, true)
      else if cell.type = MaterialType.WetSand ∧ SOAK_THRESHOLD ≤ cell.soak ∧ sy < wy then
        ((Swap s wx wy sx sy).1, true)
      else tryWetSandGo wx wy s rest

def TryWetSand (s : Sim) (wx wy : Int) : Sim × Bool :=
  tryWetSandGo wx wy s wetOffsets

def UpdateSand (rng : Nat → Bool) (s : Sim) (n : Nat) (x y : Int) : Sim × Nat :=
  if s.height ≤ y + 1 then (s, n)
  else
    let below := (Get s x (y + 1)).type
    if below = MaterialType.Water then ((Swap s x y x (y + 1)).1, n)
    else if below = MaterialType.Empty then ((Move s x y x (y + 1)).1, n)
    else
      let leftEmpty := decide (0 ≤ x - 1) && ((Get s (x - 1) (y + 1)).type == MaterialType.Empty)
      let rightEmpty := decide (x + 1 < s.width) && ((Get s (x + 1) (y + 1)).type == MaterialType.Empty)
      if leftEmpty && rightEmpty then
        ((Move s x y (x + (if rng n then -1 else 1)) (y + 1)).1, n + 1)
      else if leftEmpty then ((Move s x y (x - 1) (y + 1)).1, n)
      else if rightEmpty then ((Move s x y (x + 1) (y + 1)).1, n)
      else (s, n)

def UpdateWetSand (s : Sim) (n : Nat) (x y : Int) : Sim × Nat :=
  if s.height ≤ y + 1 then (s, n)
  else
    let below := (Get s x (y + 1)).type
    if below = MaterialType.Empty then ((Move s x y x (y + 1)).1, n)
    else if below = MaterialType.Water then ((Swap s x y x (y + 1)).1, n)
    else (s, n)

def UpdateWater (rng : Nat → Bool) (s : Sim) (n : Nat) (x y : Int) : Sim × Nat :=
  let t := TryWetSand s x y
  if t.2 then (t.1, n)
  else
    let s1 := t.1
    if y + 1 < s1.height ∧ (Get s1 x (y + 1)).type = MaterialType.Empty then
      ((Move s1 x y x (y + 1)).1, n)
    else if y + 1 < s1.height then
      let left := decide (0 ≤ x - 1) && ((Get s1 (x - 1) (y + 1)).type == MaterialType.Empty)
      let right := decide (x + 1 < s1.width) && ((Get s1 (x + 1) (y + 1)).type == MaterialType.Empty)
      if left && right then
        ((Move s1 x y (if rng n then x - 1 else x + 1) (y + 1)).1, n + 1)
      else if left then ((Move s1 x y (x - 1) (y + 1)).1, n)
      else if right then ((Move s1 x y (x + 1) (y + 1)).1, n)
      else
        let lSide := decide (0 ≤ x - 1) && ((Get s1 (x - 1) y).type == MaterialType.Empty)
        let rSide := decide (x + 1 < s1.width) && ((Get s1 (x + 1) y).type == MaterialType.Empty)
        if lSide && rSide then
          ((Move s1 x y (if rng n then x - 1 else x + 1) y).1, n + 1)
        else if lSide then ((Move s1 x y (x - 1) y).1, n)
        else if rSide then ((Move s1 x y (x + 1) y).1, n)
        else (s1, n)
    else (s1, n)

/-- Columns `cx, cx+1, …, cx+n-1` of row `ry`, in scan order. -/
def colsFrom (ry : Int) (cx : Nat) : Nat → List (Int × Int)
  | 0 => []
  | n + 1 => ((cx : Int), ry) :: colsFrom ry (cx + 1) n

/-- Scan positions of `Update`: rows `k-1, k-2, …, 0` (bottom to top),
each row's columns `0 … w-1` left to right. -/
def scanFrom (w : Nat) : Nat → List (Int × Int)
  | 0 => []
  | k + 1 => colsFrom ((k : Int)) 0 w ++ scanFrom w k

/-- One dispatch step of the `Update` scan: switch on the raw grid read
`m_grid[y * width + x].type`. -/
def tickCell (rng : Nat → Bool) (acc : Sim × Nat) (p : Int × Int) : Sim × Nat :=
  match (acc.1.grid.getD (GetIndex acc.1 p.1 p.2).toNat defaultCell).type with
  | MaterialType.Sand => UpdateSand rng acc.1 acc.2 p.1 p.2
  | MaterialType.WetSand => UpdateWetSand acc.1 acc.2 p.1 p.2
  | MaterialType.Water => UpdateWater rng acc.1 acc.2 p.1 p.2
  | _ => acc

/-- One full `tick()` (`SandSimulation::Update`). -/
def Update (rng : Nat → Bool) (s : Sim) (n : Nat) : Sim × Nat :=
  (scanFrom s.width.toNat s.height.toNat).foldl (tickCell rng) (s, n)

inductive AxisMode where
  | X_Axis
  | Y_Axis
deriving DecidableEq

inductive ControlMode where
  | Mode_1DOF
  | Mode_2DOF
deriving DecidableEq

structure Vec2 where
  x : ℚ
  y : ℚ
deriving DecidableEq

/-- State of `HapticSystem`. -/
structure HapticState where
  proxyPos : Vec2
  devicePos : Vec2
  anchorPos : Vec2
  smoothedResistance : ℚ
  currentForce1D : ℚ
  rawInputVal : ℚ
  currentAxis : AxisMode
  currentMode : ControlMode
  radius : ℚ
  frictionCoef : ℚ
  hapkitScale : ℚ
  springK : ℚ
deriving DecidableEq

/-- C++ `static_cast<int>` on a float value: truncation toward zero. -/
def truncQ (q : ℚ) : Int :=
  if 0 ≤ q then Int.floor q else Int.ceil q

/-- The damping factor computed in `HapticSystem::Update`:
`viscosity = 1 / (1 + smoothedResistance * frictionCoef)`. -/
def viscosity (smoothedResistance frictionCoef : ℚ) : ℚ :=
  1 / (1 + smoothedResistance * frictionCoef)

def Recenter (h : HapticState) (newCenter : Vec2) : HapticState :=
  { h with anchorPos := newCenter, proxyPos := newCenter, devicePos := newCenter,
           rawInputVal := 0 }

/-- `HapticSystem::DisplaceSand`.  The square root used by `glm::length` and
`glm::normalize` is irrational in general, so it is taken as an explicit
parameter `sqrtQ`. -/
def DisplaceSand (sqrtQ : ℚ → ℚ) (h : HapticState) (sim0 : Sim) : Sim :=
  let r : Int := Int.ceil h.radius
  let px := truncQ h.proxyPos.x
  let py := truncQ h.proxyPos.y
  let rSq := h.radius * h.radius
  ((intRange (py - r) (py + r)).flatMap
      (fun y => (intRange (px - r) (px + r)).map (fun x => (x, y)))).foldl
    (fun sim p =>
      if (Get sim p.1 p.2).type ≠ MaterialType.Empty then
        let dx : ℚ := (p.1 : ℚ) - h.proxyPos.x
        let dy : ℚ := (p.2 : ℚ) - h.proxyPos.y
        if dx * dx + dy * dy ≤ rSq then
          let len := sqrtQ (dx * dx + dy * dy)
          let dir : Vec2 := if len < 0.01 then ⟨0, -1⟩ else ⟨dx / len, dy / len⟩
          let tx := h.proxyPos.x + dir.x * (h.radius + 1.5)
          let ty := h.proxyPos.y + dir.y * (h.radius + 1.5)
          let best := FindNearestEmpty sim (truncQ tx) (truncQ ty) 3
          if best.1 ≠ -1 then (Move sim p.1 p.2 best.1 best.2).1 else sim
        else sim
      else sim)
    sim0

/-- `HapticSystem::Update`, with the square root of `glm::length` abstracted
as `sqrtQ`. -/
def HapticUpdate (sqrtQ : ℚ → ℚ) (h : HapticState) (mousePos : Vec2)
    (rawInputMeters : ℚ) (isMouseInput : Bool) (sim : Sim) : HapticState × Sim :=
  let h1 :=
    if h.currentMode = ControlMode.Mode_2DOF then
      { h with devicePos := mousePos, currentForce1D := 0 }
    else
      let riv0 :=
        if isMouseInput then
          if h.currentAxis = AxisMode.X_Axis then (mousePos.x - h.anchorPos.x) / h.hapkitScale
          else (mousePos.y - h.anchorPos.y) / h.hapkitScale
        else rawInputMeters
      let riv := max (-0.08) (min 0.08 riv0)
      let dev :=
        if h.currentAxis = AxisMode.X_Axis then
          Vec2.mk (h.anchorPos.x + riv * h.hapkitScale) h.anchorPos.y
        else
          Vec2.mk h.anchorPos.x (h.anchorPos.y + riv * h.hapkitScale)
      { h with rawInputVal := riv, devicePos := dev }
  let rawResistance := GetResistance sim h1.proxyPos.x h1.proxyPos.y h1.radius
  let smoothed := h1.smoothedResistance * (1 - 0.2) + rawResistance * 0.2
  let visc := viscosity smoothed h1.frictionCoef
  let proxy := Vec2.mk (h1.proxyPos.x + (h1.devicePos.x - h1.proxyPos.x) * visc)
                       (h1.proxyPos.y + (h1.devicePos.y - h1.proxyPos.y) * visc)
  let h2 := { h1 with smoothedResistance := smoothed, proxyPos := proxy }
  let sim2 := DisplaceSand sqrtQ h2 sim
  let fx := (h2.proxyPos.x - h2.devicePos.x) * (-h2.springK)
  let fy := (h2.proxyPos.y - h2.devicePos.y) * (-h2.springK)
  let deadband := sqrtQ (fx * fx + fy * fy) < 0.025
  let fvx := if deadband then 0 else fx
  let fvy := if deadband then 0 else fy
  let h3 :=
    if h2.currentMode = ControlMode.Mode_1DOF then
      { h2 with currentForce1D := if h2.currentAxis = AxisMode.X_Axis then fvx else fvy }
    else h2
  (h3, sim2)

/-!
Specification-side definitions.  Everything below is written from the
spec's words (not from the source) and is only compared against the
source-embedded operations above.
-/

/-- Well-formed simulation state: the grid has exactly `width * height` slots,
as `Resize` establishes. -/
def WF (s : Sim) : Prop :=
  s.grid.length = s.width.toNat * s.height.toNat

/-- Number of non-`Empty` cells of the grid. -/
def countNonEmpty (s : Sim) : Nat :=
  s.grid.countP (fun c => !(c.type == MaterialType.Empty))

/-- Spec wording of when a neighbor at offset `o` of the water cell `(wx,wy)`
matches one of the three `try_wet_sand` cases: a `Sand` cell, a `WetSand`
cell below the saturation threshold, or a saturated `WetSand` cell strictly
above the water cell. -/
def wetMatch (s : Sim) (wx wy : Int) (o : Int × Int) : Bool :=
  let sx := wx + o.1
  let sy := wy + o.2
  IsInBounds s sx sy &&
    (let cell := Get s sx sy
     (cell.type == MaterialType.Sand)
       || (cell.type == MaterialType.WetSand && decide (cell.soak < SOAK_THRESHOLD))
       || (cell.type == MaterialType.WetSand && decide (SOAK_THRESHOLD ≤ cell.soak)
             && decide (sy < wy)))

/-- Spec wording of the action `try_wet_sand` performs on the first matching
neighbor: wet a `Sand` cell with `soak = 1` and clear the water; increment an
unsaturated `WetSand` cell's soak and clear the water; or swap with a
saturated `WetSand` cell. -/
def wetAction (s : Sim) (wx wy : Int) (o : Int × Int) : Sim :=
  let sx := wx + o.1
  let sy := wy + o.2
  let cell := Get s sx sy
  if cell.type = MaterialType.Sand then
    Set (Set s sx sy MaterialType.WetSand 1) wx wy MaterialType.Empty 0
  else if cell.soak < SOAK_THRESHOLD then
    Set (Set s sx sy MaterialType.WetSand (cell.soak + 1)) wx wy MaterialType.Empty 0
  else (Swap s wx wy sx sy).1

/-- Whether `try_wet_sand` at `(wx, wy)` performs an absorption reaction
(one that clears the water cell): the first matching neighbor is `Sand` or
unsaturated `WetSand`. -/
def absorbs (s : Sim) (wx wy : Int) : Bool :=
  match wetOffsets.find? (wetMatch s wx wy) with
  | some o =>
    let cell := Get s (wx + o.1) (wy + o.2)
    (cell.type == MaterialType.Sand) || decide (cell.soak < SOAK_THRESHOLD)
  | none => false

/-- `tickCell` instrumented with a counter of absorption reactions. -/
def tickCellCnt (rng : Nat → Bool) (acc : Sim × Nat × Nat) (p : Int × Int) : Sim × Nat × Nat :=
  let k :=
    if (acc.1.grid.getD (GetIndex acc.1 p.1 p.2).toNat defaultCell).type == MaterialType.Water
        && absorbs acc.1 p.1 p.2 then acc.2.2 + 1
    else acc.2.2
  let r := tickCell rng (acc.1, acc.2.1) p
  (r.1, r.2, k)

/-- Number of absorption reactions performed during one `tick()`. -/
def absorbCount (rng : Nat → Bool) (s : Sim) (n : Nat) : Nat :=
  ((scanFrom s.width.toNat s.height.toNat).foldl (tickCellCnt rng) (s, n, 0)).2.2

/-- Water movement exactly as claim C3 words it (no bottom-row proviso):
down if the cell below is `Empty`, else into an empty diagonal-below cell,
else horizontally into an empty side neighbor, else stay. -/
def UpdateWaterClaimOrig (rng : Nat → Bool) (s : Sim) (n : Nat) (x y : Int) : Sim × Nat :=
  let t := TryWetSand s x y
  if t.2 then (t.1, n)
  else
    let s1 := t.1
    if (Get s1 x (y + 1)).type = MaterialType.Empty then
      ((Move s1 x y x (y + 1)).1, n)
    else
      let dl := (Get s1 (x - 1) (y + 1)).type == MaterialType.Empty
      let dr := (Get s1 (x + 1) (y + 1)).type == MaterialType.Empty
      if dl && dr then ((Move s1 x y (if rng n then x - 1 else x + 1) (y + 1)).1, n + 1)
      else if dl then ((Move s1 x y (x - 1) (y + 1)).1, n)
      else if dr then ((Move s1 x y (x + 1) (y + 1)).1, n)
      else
        let hl := (Get s1 (x - 1) y).type == MaterialType.Empty
        let hr := (Get s1 (x + 1) y).type == MaterialType.Empty
        if hl && hr then ((Move s1 x y (if rng n then x - 1 else x + 1) y).1, n + 1)
        else if hl then ((Move s1 x y (x - 1) y).1, n)
        else if hr then ((Move s1 x y (x + 1) y).1, n)
        else (s1, n)

/-- Water movement as claim C3 amended: identical to `UpdateWaterClaimOrig`
except that the horizontal spread is only attempted when `y + 1 < height`
(a bottom-row water cell that survives `try_wet_sand` stays in place). -/
def UpdateWaterClaimAmended (rng : Nat → Bool) (s : Sim) (n : Nat) (x y : Int) : Sim × Nat :=
  let t := TryWetSand s x y
  if t.2 then (t.1, n)
  else
    let s1 := t.1
    if (Get s1 x (y + 1)).type = MaterialType.Empty then
      ((Move s1 x y x (y + 1)).1, n)
    else
      let dl := (Get s1 (x - 1) (y + 1)).type == MaterialType.Empty
      let dr := (Get s1 (x + 1) (y + 1)).type == MaterialType.Empty
      if dl && dr then ((Move s1 x y (if rng n then x - 1 else x + 1) (y + 1)).1, n + 1)
      else if dl then ((Move s1 x y (x - 1) (y + 1)).1, n)
      else if dr then ((Move s1 x y (x + 1) (y + 1)).1, n)
      else if y + 1 < s1.height then
        let hl := (Get s1 (x - 1) y).type == MaterialType.Empty
        let hr := (Get s1 (x + 1) y).type == MaterialType.Empty
        if hl && hr then ((Move s1 x y (if rng n then x - 1 else x + 1) y).1, n + 1)
        else if hl then ((Move s1 x y (x - 1) y).1, n)
        else if hr then ((Move s1 x y (x + 1) y).1, n)
        else (s1, n)
      else (s1, n)

/-- Per-cell weight of the resistance field, as the spec words it:
`Sand → 0.1`, `WetSand → soak * 0.02 + 0.1`, `Water → 0.02`, else `0`. -/
def specWeight (c : Cell) : ℚ :=
  match c.type with
  | MaterialType.Sand => 0.1
  | MaterialType.WetSand => (c.soak : ℚ) * 0.02 + 0.1
  | MaterialType.Water => 0.02
  | _ => 0

/-- The resistance value as claim C5 words it: the sum over every in-bounds
grid cell whose center is within squared distance `radius^2` of the query
point, of the per-material weight. -/
def resistanceSpec (s : Sim) (cx cy radius : ℚ) : ℚ :=
  Finset.sum (Finset.Icc 0 (s.height - 1)) (fun y =>
    Finset.sum (Finset.Icc 0 (s.width - 1)) (fun x =>
      if ((x : ℚ) - cx) * ((x : ℚ) - cx) + ((y : ℚ) - cy) * ((y : ℚ) - cy) ≤ radius * radius
      then specWeight (Get s x y) else 0))

/-- Per-cell contribution of the resistance scan at `(x, y)`: the
per-material weight when the cell is in bounds and within squared distance
`r2` of the query point, and `0` otherwise. -/
def resWeight (s : Sim) (cx cy r2 : ℚ) (x y : Int) : ℚ :=
  if IsInBounds s x y = true then
    if ((x : ℚ) - cx) * ((x : ℚ) - cx) + ((y : ℚ) - cy) * ((y : ℚ) - cy) ≤ r2 then
      specWeight (Get s x y)
    else 0
  else 0

/-- A row-major grid list populated from a coordinate function. -/
def mkGrid (w h : Int) (f : Int → Int → Cell) : List Cell :=
  (List.range (w.toNat * h.toNat)).map
    (fun i => f (((i % w.toNat : Nat)) : Int) (((i / w.toNat : Nat)) : Int))

/-- Content of the claim C4 scenario grid: exactly one `Water` cell at
`(x, y)` and one `Sand` cell directly below it at `(x, y+1)`. -/
def twoCellF (x y : Int) (cx cy : Int) : Cell :=
  if cx = x ∧ cy = y then { type := MaterialType.Water, soak := 0 }
  else if cx = x ∧ cy = y + 1 then { type := MaterialType.Sand, soak := 0 }
  else defaultCell

/-- The claim C4 scenario grid. -/
def twoCellGrid (w h x y : Int) : Sim :=
  { width := w, height := h, grid := mkGrid w h (twoCellF x y) }

/-- Rows `k+d-1, k+d-2, …, k` of the scan order (used to split the scan). -/
def rowsBetween (w : Nat) (k : Nat) : Nat → List (Int × Int)
  | 0 => []
  | d + 1 => colsFrom ((k + d : Nat) : Int) 0 w ++ rowsBetween w k d

/-- A fixed tie-break stream for concrete evaluations. -/
def rngTrue : Nat → Bool := fun _ => true

/-- 2×1 grid: one bottom-row `Water` cell with an empty right neighbor. -/
def exBottomWater : Sim :=
  { width := 2, height := 1,
    grid := [{ type := MaterialType.Water, soak := 0 }, defaultCell] }

/-- 1×2 grid: a `Water` cell above an unsaturated `WetSand` cell. -/
def exWaterWet : Sim :=
  { width := 1, height := 2,
    grid := [{ type := MaterialType.Water, soak := 0 },
             { type := MaterialType.WetSand, soak := 1 }] }

/-- 1×1 grid holding a single `Sand` cell. -/
def exSand1 : Sim :=
  { width := 1, height := 1, grid := [{ type := MaterialType.Sand, soak := 0 }] }

/-- 1×1 grid holding a single `Empty` cell. -/
def exEmpty1 : Sim :=
  { width := 1, height := 1, grid := [defaultCell] }

/-- A concrete haptic state in `Rail1D` mode, axis X, `hapkitScale = 500`. -/
def exHap : HapticState :=
  { proxyPos := ⟨30, 30⟩, devicePos := ⟨30, 30⟩, anchorPos := ⟨30, 30⟩,
    smoothedResistance := 0, currentForce1D := 0, rawInputVal := 0,
    currentAxis := AxisMode.X_Axis, currentMode := ControlMode.Mode_1DOF,
    radius := 4, frictionCoef := 5, hapkitScale := 500, springK := 0.5 }

/-- Dimensions and grid length are shared between two simulation states. -/
def SameDims (s s' : Sim) : Prop :=
  s'.width = s.width ∧ s'.height = s.height ∧ s'.grid.length = s.grid.length

/-!
Lemmas.  Everything from here on is proved about the definitions above.
-/

theorem isInBounds_iff (s : Sim) (x y : Int) :
    IsInBounds s x y = true ↔ 0 ≤ x ∧ x < s.width ∧ 0 ≤ y ∧ y < s.height := by
  simp [IsInBounds, Bool.and_eq_true, decide_eq_true_iff, and_assoc]

theorem sameDims_refl (s : Sim) : SameDims s s := ⟨rfl, rfl, rfl⟩

theorem sameDims_trans {s1 s2 s3 : Sim} (h1 : SameDims s1 s2) (h2 : SameDims s2 s3) :
    SameDims s1 s3 :=
  ⟨h2.1.trans h1.1, h2.2.1.trans h1.2.1, h2.2.2.trans h1.2.2⟩

theorem isInBounds_congr {s s' : Sim} (h : SameDims s s') (x y : Int) :
    IsInBounds s' x y = IsInBounds s x y := by
  unfold IsInBounds
  rw [h.1, h.2.1]

theorem dims_Set (s : Sim) (x y : Int) (t : MaterialType) (k : Int) :
    SameDims s (Set s x y t k) := by
  unfold Set
  split <;> exact ⟨rfl, rfl, by simp [List.length_set]⟩

theorem dims_Move (s : Sim) (x1 y1 x2 y2 : Int) :
    SameDims s (Move s x1 y1 x2 y2).1 := by
  unfold Move
  split
  · exact sameDims_refl s
  · split
    · exact sameDims_refl s
    · exact ⟨rfl, rfl, by simp [List.length_set]⟩

theorem dims_Swap (s : Sim) (x1 y1 x2 y2 : Int) :
    SameDims s (Swap s x1 y1 x2 y2).1 := by
  unfold Swap
  split
  · exact sameDims_refl s
  · exact ⟨rfl, rfl, by simp [List.length_set]⟩

theorem dims_tryWetSandGo (wx wy : Int) (s : Sim) (os : List (Int × Int)) :
    SameDims s (tryWetSandGo wx wy s os).1 := by
  induction os with
  | nil => exact sameDims_refl s
  | cons o rest ih =>
    unfold tryWetSandGo
    dsimp only
    split_ifs <;>
      first
      | exact ih
      | exact sameDims_trans (dims_Set _ _ _ _ _) (dims_Set _ _ _ _ _)
      | exact dims_Swap _ _ _ _ _

theorem dims_TryWetSand (s : Sim) (wx wy : Int) :
    SameDims s (TryWetSand s wx wy).1 :=
  dims_tryWetSandGo wx wy s wetOffsets

theorem dims_UpdateSand (rng : Nat → Bool) (s : Sim) (n : Nat) (x y : Int) :
    SameDims s (UpdateSand rng s n x y).1 := by
  unfold UpdateSand
  dsimp only
  split_ifs <;>
    first
    | exact sameDims_refl s
    | exact dims_Swap _ _ _ _ _
    | exact dims_Move _ _ _ _ _

theorem dims_UpdateWetSand (s : Sim) (n : Nat) (x y : Int) :
    SameDims s (UpdateWetSand s n x y).1 := by
  unfold UpdateWetSand
  dsimp only
  split_ifs <;>
    first
    | exact sameDims_refl s
    | exact dims_Swap _ _ _ _ _
    | exact dims_Move _ _ _ _ _

theorem dims_UpdateWater (rng : Nat → Bool) (s : Sim) (n : Nat) (x y : Int) :
    SameDims s (UpdateWater rng s n x y).1 := by
  have hT := dims_TryWetSand s x y
  unfold UpdateWater
  dsimp only
  split_ifs <;>
    first
    | exact hT
    | exact sameDims_trans hT (dims_Move _ _ _ _ _)

theorem dims_tickCell (rng : Nat → Bool) (acc : Sim × Nat) (p : Int × Int) :
    SameDims acc.1 (tickCell rng acc p).1 := by
  unfold tickCell
  split
  · exact dims_UpdateSand _ _ _ _ _
  · exact dims_UpdateWetSand _ _ _ _
  · exact dims_UpdateWater _ _ _ _ _
  · exact sameDims_refl _

theorem dims_foldl_tickCell (rng : Nat → Bool) (L : List (Int × Int)) (acc : Sim × Nat) :
    SameDims acc.1 (L.foldl (tickCell rng) acc).1 := by
  induction L generalizing acc with
  | nil => exact sameDims_refl _
  | cons p rest ih =>
    exact sameDims_trans (dims_tickCell rng acc p) (ih (tickCell rng acc p))

theorem wf_of_sameDims {s s' : Sim} (hd : SameDims s s') (hwf : WF s) : WF s' := by
  unfold WF at hwf ⊢
  rw [hd.1, hd.2.1, hd.2.2, hwf]

theorem getD_set_self {α : Type} (l : List α) (i : Nat) (a d : α) (h : i < l.length) :
    (l.set i a).getD i d = a := by
  rw [List.getD_eq_getElem _ _ (by simpa using h), List.getElem_set_self]

theorem getD_set_ne {α : Type} (l : List α) {i j : Nat} (hne : i ≠ j) (a d : α) :
    (l.set i a).getD j d = l.getD j d := by
  rw [List.getD_eq_getElem?_getD, List.getD_eq_getElem?_getD, List.getElem?_set_ne hne]

theorem idx_toNat_lt {s : Sim} (hwf : WF s) {x y : Int} (hb : IsInBounds s x y = true) :
    (GetIndex s x y).toNat < s.grid.length := by
  rw [isInBounds_iff] at hb
  obtain ⟨hx0, hxw, hy0, hyh⟩ := hb
  unfold GetIndex
  rw [hwf]
  have hw : 0 < s.width := lt_of_le_of_lt hx0 hxw
  have hh : 0 < s.height := lt_of_le_of_lt hy0 hyh
  have h1 : y * s.width + x < s.width * s.height := by nlinarith
  have h2 : 0 ≤ y * s.width + x := by
    have := mul_nonneg hy0 hw.le
    omega
  have h3 : s.width * s.height = ((s.width.toNat * s.height.toNat : Nat) : Int) := by
    rw [Nat.cast_mul, Int.toNat_of_nonneg hw.le, Int.toNat_of_nonneg hh.le]
  omega

theorem getIndex_inj {s : Sim} {x1 y1 x2 y2 : Int}
    (h1 : IsInBounds s x1 y1 = true) (h2 : IsInBounds s x2 y2 = true)
    (hne : ¬(x1 = x2 ∧ y1 = y2)) :
    (GetIndex s x1 y1).toNat ≠ (GetIndex s x2 y2).toNat := by
  rw [isInBounds_iff] at h1 h2
  obtain ⟨ha0, haw, hb0, hbh⟩ := h1
  obtain ⟨hc0, hcw, hd0, hdh⟩ := h2
  unfold GetIndex
  intro he
  have hw : 0 < s.width := lt_of_le_of_lt ha0 haw
  have e1 : 0 ≤ y1 * s.width + x1 := by
    have := mul_nonneg hb0 hw.le
    omega
  have e2 : 0 ≤ y2 * s.width + x2 := by
    have := mul_nonneg hd0 hw.le
    omega
  have heq : y1 * s.width + x1 = y2 * s.width + x2 := by omega
  rcases lt_trichotomy y1 y2 with hlt | hy | hgt
  · have hmul : (y1 + 1) * s.width ≤ y2 * s.width :=
      mul_le_mul_of_nonneg_right (by omega) hw.le
    rw [add_mul, one_mul] at hmul
    linarith
  · subst hy
    have : x1 = x2 := by linarith
    exact hne ⟨this, rfl⟩
  · have hmul : (y2 + 1) * s.width ≤ y1 * s.width :=
      mul_le_mul_of_nonneg_right (by omega) hw.le
    rw [add_mul, one_mul] at hmul
    linarith

theorem get_inb {s : Sim} {x y : Int} (hb : IsInBounds s x y = true) :
    Get s x y = s.grid.getD (GetIndex s x y).toNat defaultCell := by
  simp [Get, hb]

theorem get_oob {s : Sim} {x y : Int} (hb : IsInBounds s x y = false) :
    Get s x y = boundaryCell := by
  simp [Get, hb]

theorem set_oob {s : Sim} {x y : Int} (hb : IsInBounds s x y = false)
    (t : MaterialType) (k : Int) : Set s x y t k = s := by
  simp [Set, hb]

theorem set_inb {s : Sim} {x y : Int} (hb : IsInBounds s x y = true)
    (t : MaterialType) (k : Int) :
    Set s x y t k =
      { s with grid := s.grid.set (GetIndex s x y).toNat { type := t, soak := k } } := by
  simp [Set, hb]

theorem get_Set_self {s : Sim} (hwf : WF s) {x y : Int} (hb : IsInBounds s x y = true)
    (t : MaterialType) (k : Int) :
    Get (Set s x y t k) x y = { type := t, soak := k } := by
  rw [set_inb hb]
  have hb2 : IsInBounds { s with grid := s.grid.set (GetIndex s x y).toNat { type := t, soak := k } } x y = true := by
    rw [show (IsInBounds { s with grid := s.grid.set (GetIndex s x y).toNat { type := t, soak := k } } x y) = IsInBounds s x y from rfl]
    exact hb
  rw [get_inb hb2]
  exact getD_set_self _ _ _ _ (idx_toNat_lt hwf hb)

theorem isInBounds_grid (s : Sim) (g : List Cell) (x y : Int) :
    IsInBounds { s with grid := g } x y = IsInBounds s x y := rfl

theorem getIndex_grid (s : Sim) (g : List Cell) (x y : Int) :
    GetIndex { s with grid := g } x y = GetIndex s x y := rfl

theorem get_Set_ne {s : Sim} {x y a b : Int} (hne : ¬(a = x ∧ b = y))
    (t : MaterialType) (k : Int) :
    Get (Set s x y t k) a b = Get s a b := by
  cases hxy : IsInBounds s x y with
  | false => rw [set_oob hxy]
  | true =>
    rw [set_inb hxy]
    cases hab : IsInBounds s a b with
    | false =>
      rw [get_oob hab, get_oob]
      rw [isInBounds_grid]
      exact hab
    | true =>
      rw [get_inb hab]
      unfold Get
      rw [isInBounds_grid, hab, if_pos rfl, getIndex_grid]
      exact getD_set_ne _ (getIndex_inj hxy hab (fun h => hne ⟨h.1.symm, h.2.symm⟩)) _ _

theorem move_succ {s : Sim} {x1 y1 x2 y2 : Int}
    (h1 : IsInBounds s x1 y1 = true) (h2 : IsInBounds s x2 y2 = true)
    (he : (Get s x2 y2).type = MaterialType.Empty) :
    Move s x1 y1 x2 y2 =
      (Set (Set s x2 y2 (Get s x1 y1).type (Get s x1 y1).soak) x1 y1 MaterialType.Empty 0,
       true) := by
  have he' : (s.grid.getD (GetIndex s x2 y2).toNat defaultCell).type = MaterialType.Empty := by
    rw [← get_inb h2]
    exact he
  unfold Move
  rw [if_neg (by simp [h1, h2]), if_neg (not_not_intro he')]
  rw [get_inb h1, set_inb h2]
  unfold Set
  rw [isInBounds_grid, h1, if_pos rfl, getIndex_grid]
  rfl

theorem move_fail_bounds {s : Sim} {x1 y1 x2 y2 : Int}
    (h : IsInBounds s x1 y1 = false ∨ IsInBounds s x2 y2 = false) :
    Move s x1 y1 x2 y2 = (s, false) := by
  unfold Move
  rw [if_pos]
  rcases h with h | h <;> simp [h]

theorem move_fail_dest {s : Sim} {x1 y1 x2 y2 : Int}
    (h2 : IsInBounds s x2 y2 = true)
    (he : (Get s x2 y2).type ≠ MaterialType.Empty) :
    Move s x1 y1 x2 y2 = (s, false) := by
  rw [get_inb h2] at he
  unfold Move
  by_cases h1 : (IsInBounds s x1 y1 && IsInBounds s x2 y2) = true
  · rw [if_neg (by simp [h1]), if_pos he]
  · rw [if_pos h1]

theorem tryGo_char (s : Sim) (wx wy : Int) (os : List (Int × Int)) :
    tryWetSandGo wx wy s os =
      match os.find? (wetMatch s wx wy) with
      | none => (s, false)
      | some o => (wetAction s wx wy o, true) := by
  induction os with
  | nil => rfl
  | cons o rest ih =>
    unfold tryWetSandGo
    dsimp only
    cases hb : IsInBounds s (wx + o.1) (wy + o.2) with
    | false =>
      rw [if_pos rfl, ih, List.find?_cons_of_neg]
      simp [wetMatch, hb]
    | true =>
      rw [if_neg (by simp)]
      by_cases hS : (Get s (wx + o.1) (wy + o.2)).type = MaterialType.Sand
      · rw [if_pos hS, List.find?_cons_of_pos _ (by simp [wetMatch, hb, hS])]
        unfold wetAction
        dsimp only
        rw [if_pos hS]
      · rw [if_neg hS]
        by_cases hW2 : (Get s (wx + o.1) (wy + o.2)).type = MaterialType.WetSand
            ∧ (Get s (wx + o.1) (wy + o.2)).soak < SOAK_THRESHOLD
        · rw [if_pos hW2,
            List.find?_cons_of_pos _ (by simp [wetMatch, hb, hW2.1, hW2.2])]
          unfold wetAction
          dsimp only
          rw [if_neg hS, if_pos hW2.2]
        · rw [if_neg hW2]
          by_cases hW3 : (Get s (wx + o.1) (wy + o.2)).type = MaterialType.WetSand
              ∧ SOAK_THRESHOLD ≤ (Get s (wx + o.1) (wy + o.2)).soak ∧ wy + o.2 < wy
          · rw [if_pos hW3,
              List.find?_cons_of_pos _ (by simp [wetMatch, hb, hW3.1, hW3.2.1, hW3.2.2])]
            unfold wetAction
            dsimp only
            rw [if_neg hS, if_neg (not_lt.mpr hW3.2.1)]
          · rw [if_neg hW3, ih, List.find?_cons_of_neg]
            simp only [wetMatch, hb, Bool.true_and, Bool.or_eq_true, Bool.and_eq_true,
              beq_iff_eq, decide_eq_true_eq, not_or]
            refine ⟨⟨fun h => hS h, ?_⟩, ?_⟩
            · intro h
              exact hW2 ⟨h.1, h.2⟩
            · intro h
              exact hW3 ⟨h.1.1, h.1.2, h.2⟩

/-- C1: `try_wet_sand(x, y)` examines the nine fixed offsets in priority
order and acts on the first matching neighbor — wetting a `Sand` neighbor
(`soak = 1`, water cleared), soaking an unsaturated `WetSand` neighbor
(soak incremented by one, water cleared), or swapping with a saturated
`WetSand` neighbor that lies strictly above; if no neighbor matches it
returns `false` and leaves the grid unchanged. -/
theorem c1_tryWetSand_first_match (s : Sim) (wx wy : Int) :
    TryWetSand s wx wy =
      match wetOffsets.find? (wetMatch s wx wy) with
      | none => (s, false)
      | some o => (wetAction s wx wy o, true) :=
  tryGo_char s wx wy wetOffsets

theorem tryWetSand_char (s : Sim) (wx wy : Int) :
    TryWetSand s wx wy =
      match wetOffsets.find? (wetMatch s wx wy) with
      | none => (s, false)
      | some o => (wetAction s wx wy o, true) :=
  tryGo_char s wx wy wetOffsets

theorem tryWetSand_false_eq {s : Sim} {wx wy : Int}
    (h : (TryWetSand s wx wy).2 = false) : (TryWetSand s wx wy).1 = s := by
  rw [tryWetSand_char] at h ⊢
  cases hf : wetOffsets.find? (wetMatch s wx wy) with
  | none => simp [hf]
  | some o =>
    rw [hf] at h
    simp at h

/-- C9: out-of-range `get` returns the synthetic boundary cell and
out-of-range `set` is a no-op, so no in-range grid cell is changed. -/
theorem c9_oob_get_set (s : Sim) (x y : Int)
    (h : IsInBounds s x y = false) :
    Get s x y = boundaryCell ∧ ∀ t k, Set s x y t k = s :=
  ⟨get_oob h, fun t k => set_oob h t k⟩

/-- Witness for C9 at a concrete out-of-range coordinate. -/
theorem c9_oob_get_set_witness :
    IsInBounds exSand1 (-1) 0 = false ∧
      (Get exSand1 (-1) 0 = boundaryCell ∧
        ∀ t k, Set exSand1 (-1) 0 t k = exSand1) :=
  ⟨by decide, c9_oob_get_set exSand1 (-1) 0 (by decide)⟩

/-- C8: `move(x1, y1, x2, y2)` returns `false` and leaves the grid unchanged
exactly when an endpoint is out of range or the destination is not `Empty`;
otherwise it returns `true`, the destination receives the source cell's full
contents (soak included) and the source is then cleared to `Empty` with
soak `0`. -/
theorem c8_move_spec (s : Sim) (x1 y1 x2 y2 : Int) :
    if IsInBounds s x1 y1 = false ∨ IsInBounds s x2 y2 = false
        ∨ (Get s x2 y2).type ≠ MaterialType.Empty then
      Move s x1 y1 x2 y2 = (s, false)
    else
      Move s x1 y1 x2 y2 =
        (Set (Set s x2 y2 (Get s x1 y1).type (Get s x1 y1).soak) x1 y1
           MaterialType.Empty 0, true) := by
  split
  case isTrue h =>
    rcases h with h | h | h
    · exact move_fail_bounds (Or.inl h)
    · exact move_fail_bounds (Or.inr h)
    · cases h2 : IsInBounds s x2 y2 with
      | false => exact move_fail_bounds (Or.inr h2)
      | true => exact move_fail_dest h2 h
  case isFalse h =>
    push_neg at h
    obtain ⟨h1, h2, he⟩ := h
    have h1t : IsInBounds s x1 y1 = true := by
      cases hc : IsInBounds s x1 y1 with
      | false => exact absurd hc h1
      | true => rfl
    have h2t : IsInBounds s x2 y2 = true := by
      cases hc : IsInBounds s x2 y2 with
      | false => exact absurd hc h2
      | true => rfl
    exact move_succ h1t h2t he

/-- C10: a bottom-row water cell whose `try_wet_sand` attempt returns
`false` is left exactly in place: the whole down/diagonal/horizontal
movement logic of `UpdateWater` is guarded by `y + 1 < height`. -/
theorem c10_bottom_row_water_stays (rng : Nat → Bool) (s : Sim) (n : Nat) (x : Int)
    (h : (TryWetSand s x (s.height - 1)).2 = false) :
    UpdateWater rng s n x (s.height - 1) = (s, n) := by
  have h1 := tryWetSand_false_eq h
  unfold UpdateWater
  rw [if_neg (by rw [h]; exact fun hc => Bool.false_ne_true hc)]
  dsimp only
  rw [h1]
  rw [if_neg (by intro hc; omega), if_neg (by omega)]

/-- Witness for C10: a bottom-row water cell with an empty side neighbor
stays in place. -/
theorem c10_bottom_row_water_stays_witness :
    (TryWetSand exBottomWater 0 (exBottomWater.height - 1)).2 = false ∧
      UpdateWater rngTrue exBottomWater 0 0 (exBottomWater.height - 1) =
        (exBottomWater, 0) :=
  ⟨by decide, c10_bottom_row_water_stays rngTrue exBottomWater 0 0 (by decide)⟩

theorem get_empty_bounds {s : Sim} {a b : Int}
    (hg : (Get s a b).type = MaterialType.Empty) : IsInBounds s a b = true := by
  cases h : IsInBounds s a b with
  | true => rfl
  | false =>
    rw [get_oob h] at hg
    simp [boundaryCell] at hg

theorem guard_left_eq (s : Sim) (a b : Int) :
    (decide (0 ≤ a) && ((Get s a b).type == MaterialType.Empty))
      = ((Get s a b).type == MaterialType.Empty) := by
  by_cases hg : (Get s a b).type = MaterialType.Empty
  · have hbnd := (isInBounds_iff s a b).mp (get_empty_bounds hg)
    simp [hg, hbnd.1]
  · simp [hg]

theorem guard_right_eq (s : Sim) (a b : Int) :
    (decide (a < s.width) && ((Get s a b).type == MaterialType.Empty))
      = ((Get s a b).type == MaterialType.Empty) := by
  by_cases hg : (Get s a b).type = MaterialType.Empty
  · have hbnd := (isInBounds_iff s a b).mp (get_empty_bounds hg)
    simp [hg, hbnd.2.1]
  · simp [hg]

theorem get_row_oob {s : Sim} {a b : Int} (h : ¬ b < s.height) :
    ((Get s a b).type == MaterialType.Empty) = false := by
  have hoob : IsInBounds s a b = false := by
    cases hc : IsInBounds s a b with
    | false => rfl
    | true => exact absurd ((isInBounds_iff s a b).mp hc).2.2.2 h
  rw [get_oob hoob]
  rfl

/-- C3 (amended): a water cell not consumed by `try_wet_sand` falls straight
down into an empty cell below, else moves into an empty diagonal-below cell
(random tie-break when both are free), else — provided it is not in the
bottom row (`y + 1 < height`) — spreads horizontally into an empty side
neighbor (random tie-break when both are free), else stays. -/
theorem c3_water_movement_amended (rng : Nat → Bool) (s : Sim) (n : Nat) (x y : Int) :
    UpdateWater rng s n x y = UpdateWaterClaimAmended rng s n x y := by
  unfold UpdateWater UpdateWaterClaimAmended
  dsimp only
  by_cases ht : (TryWetSand s x y).2 = true
  · rw [if_pos ht, if_pos ht]
  · rw [if_neg ht, if_neg ht]
    have hs1 : (TryWetSand s x y).1 = s :=
      tryWetSand_false_eq (Bool.not_eq_true _ ▸ ht)
    rw [hs1]
    by_cases hA : (Get s x (y + 1)).type = MaterialType.Empty
    · have hy : y + 1 < s.height := ((isInBounds_iff s x (y + 1)).mp (get_empty_bounds hA)).2.2.2
      rw [if_pos ⟨hy, hA⟩, if_pos hA]
    · rw [if_neg (fun hc => hA hc.2), if_neg hA]
      by_cases hy : y + 1 < s.height
      · rw [if_pos hy, guard_left_eq, guard_right_eq, guard_left_eq, guard_right_eq,
          if_pos hy]
      · rw [if_neg hy, get_row_oob hy, get_row_oob hy]
        rw [if_neg (by simp), if_neg (by simp), if_neg (by simp), if_neg hy]

/-- Counterexample to C3 as stated: a bottom-row water cell with an empty
right neighbor and a failing `try_wet_sand` does not spread horizontally,
contrary to the claim's unguarded horizontal-movement case. -/
theorem c3_water_movement_counterexample :
    (Get exBottomWater 1 0).type = MaterialType.Empty ∧
      (TryWetSand exBottomWater 0 0).2 = false ∧
      UpdateWater rngTrue exBottomWater 0 0 0 ≠
        UpdateWaterClaimOrig rngTrue exBottomWater 0 0 0 ∧
      (UpdateWater rngTrue exBottomWater 0 0 0).1 = exBottomWater := by
  refine ⟨by decide, by decide, by decide, by decide⟩

theorem countP_set_add (p : Cell → Bool) (l : List Cell) (i : Nat) (a : Cell)
    (h : i < l.length) :
    (l.set i a).countP p + (if p (l.getD i defaultCell) then 1 else 0)
      = l.countP p + (if p a then 1 else 0) := by
  rw [List.getD_eq_getElem l defaultCell h, List.countP_set p l i a h]
  by_cases hp : p l[i] = true
  · have hpos : 0 < l.countP p :=
      List.countP_pos_iff.2 ⟨l[i], List.getElem_mem h, hp⟩
    rw [if_pos hp]
    omega
  · rw [if_neg hp]
    omega

theorem count_Set {s : Sim} (hwf : WF s) {x y : Int} (hb : IsInBounds s x y = true)
    (t : MaterialType) (k : Int) :
    countNonEmpty (Set s x y t k) + (if (Get s x y).type = MaterialType.Empty then 0 else 1)
      = countNonEmpty s + (if t = MaterialType.Empty then 0 else 1) := by
  unfold countNonEmpty
  rw [set_inb hb, get_inb hb]
  have h := countP_set_add (fun c => !(c.type == MaterialType.Empty)) s.grid
    (GetIndex s x y).toNat { type := t, soak := k } (idx_toNat_lt hwf hb)
  have e1 : (if (!((s.grid.getD (GetIndex s x y).toNat defaultCell).type == MaterialType.Empty)) = true then 1 else 0)
      = (if (s.grid.getD (GetIndex s x y).toNat defaultCell).type = MaterialType.Empty then 0 else 1) := by
    by_cases hc : (s.grid.getD (GetIndex s x y).toNat defaultCell).type = MaterialType.Empty <;>
      simp [hc]
  have e2 : (if (!((Cell.mk t k).type == MaterialType.Empty)) = true then 1 else 0)
      = (if t = MaterialType.Empty then 0 else 1) := by
    by_cases hc : t = MaterialType.Empty <;> simp [hc]
  rw [e1, e2] at h
  exact h

theorem swap_succ {s : Sim} {x1 y1 x2 y2 : Int}
    (h1 : IsInBounds s x1 y1 = true) (h2 : IsInBounds s x2 y2 = true) :
    Swap s x1 y1 x2 y2 =
      (Set (Set s x1 y1 (Get s x2 y2).type (Get s x2 y2).soak) x2 y2
         (Get s x1 y1).type (Get s x1 y1).soak, true) := by
  unfold Swap
  rw [if_neg (by simp [h1, h2])]
  rw [get_inb h1, get_inb h2, set_inb h1]
  unfold Set
  rw [isInBounds_grid, h2, if_pos rfl, getIndex_grid]
  rfl

theorem count_Move {s : Sim} (hwf : WF s) (x1 y1 x2 y2 : Int) :
    countNonEmpty (Move s x1 y1 x2 y2).1 = countNonEmpty s := by
  by_cases h1 : IsInBounds s x1 y1 = true
  · by_cases h2 : IsInBounds s x2 y2 = true
    · by_cases he : (Get s x2 y2).type = MaterialType.Empty
      · rw [move_succ h1 h2 he]
        dsimp only
        have hwf1 : WF (Set s x2 y2 (Get s x1 y1).type (Get s x1 y1).soak) :=
          wf_of_sameDims (dims_Set _ _ _ _ _) hwf
        have hb1 : IsInBounds (Set s x2 y2 (Get s x1 y1).type (Get s x1 y1).soak) x1 y1 = true := by
          rw [isInBounds_congr (dims_Set _ _ _ _ _)]
          exact h1
        have e1 := count_Set hwf h2 (Get s x1 y1).type (Get s x1 y1).soak
        have e2 := count_Set hwf1 hb1 MaterialType.Empty 0
        have e3 : (Get (Set s x2 y2 (Get s x1 y1).type (Get s x1 y1).soak) x1 y1).type
            = (Get s x1 y1).type := by
          by_cases heq : x1 = x2 ∧ y1 = y2
          · rw [heq.1, heq.2, get_Set_self hwf h2]
          · rw [get_Set_ne heq]
        rw [e3] at e2
        rw [if_pos he] at e1
        have hE : (if (MaterialType.Empty = MaterialType.Empty) then (0 : Nat) else 1) = 0 := rfl
        rw [hE] at e2
        set A := (if (Get s x1 y1).type = MaterialType.Empty then (0 : Nat) else 1) with hA
        omega
      · rw [move_fail_dest h2 he]
    · rw [move_fail_bounds (Or.inr (by cases hc : IsInBounds s x2 y2 with
        | false => rfl
        | true => exact absurd hc h2))]
  · rw [move_fail_bounds (Or.inl (by cases hc : IsInBounds s x1 y1 with
      | false => rfl
      | true => exact absurd hc h1))]

theorem count_Swap {s : Sim} (hwf : WF s) (x1 y1 x2 y2 : Int) :
    countNonEmpty (Swap s x1 y1 x2 y2).1 = countNonEmpty s := by
  by_cases h1 : IsInBounds s x1 y1 = true
  · by_cases h2 : IsInBounds s x2 y2 = true
    · rw [swap_succ h1 h2]
      dsimp only
      have hwf1 : WF (Set s x1 y1 (Get s x2 y2).type (Get s x2 y2).soak) :=
        wf_of_sameDims (dims_Set _ _ _ _ _) hwf
      have hb2 : IsInBounds (Set s x1 y1 (Get s x2 y2).type (Get s x2 y2).soak) x2 y2 = true := by
        rw [isInBounds_congr (dims_Set _ _ _ _ _)]
        exact h2
      have e1 := count_Set hwf h1 (Get s x2 y2).type (Get s x2 y2).soak
      have e2 := count_Set hwf1 hb2 (Get s x1 y1).type (Get s x1 y1).soak
      have e3 : (Get (Set s x1 y1 (Get s x2 y2).type (Get s x2 y2).soak) x2 y2).type
          = (Get s x2 y2).type := by
        by_cases heq : x2 = x1 ∧ y2 = y1
        · rw [heq.1, heq.2, get_Set_self hwf h1]
        · rw [get_Set_ne heq]
      rw [e3] at e2
      set A := (if (Get s x1 y1).type = MaterialType.Empty then (0 : Nat) else 1) with hA
      set B := (if (Get s x2 y2).type = MaterialType.Empty then (0 : Nat) else 1) with hB
      omega
    · unfold Swap
      rw [if_pos (by simp [h2])]
  · unfold Swap
    rw [if_pos (by simp [h1])]

theorem count_UpdateSand (rng : Nat → Bool) {s : Sim} (n : Nat) (x y : Int)
    (hwf : WF s) :
    countNonEmpty (UpdateSand rng s n x y).1 = countNonEmpty s := by
  unfold UpdateSand
  dsimp only
  split_ifs <;>
    first
    | rfl
    | exact count_Swap hwf _ _ _ _
    | exact count_Move hwf _ _ _ _

theorem count_UpdateWetSand {s : Sim} (n : Nat) (x y : Int) (hwf : WF s) :
    countNonEmpty (UpdateWetSand s n x y).1 = countNonEmpty s := by
  unfold UpdateWetSand
  dsimp only
  split_ifs <;>
    first
    | rfl
    | exact count_Swap hwf _ _ _ _
    | exact count_Move hwf _ _ _ _

theorem wetOffsets_ne_zero : ∀ o ∈ wetOffsets, ¬(o.1 = 0 ∧ o.2 = 0) := by decide

theorem count_TryWetSand {s : Sim} {wx wy : Int} (hwf : WF s)
    (hb : IsInBounds s wx wy = true)
    (hw : (Get s wx wy).type = MaterialType.Water) :
    countNonEmpty (TryWetSand s wx wy).1 + (if absorbs s wx wy = true then 1 else 0)
      = countNonEmpty s := by
  rw [tryWetSand_char]
  unfold absorbs
  cases hf : wetOffsets.find? (wetMatch s wx wy) with
  | none => simp
  | some o =>
    have hpm := List.find?_some hf
    have hmem := List.mem_of_find?_eq_some hf
    simp only [wetMatch, Bool.and_eq_true, Bool.or_eq_true, beq_iff_eq,
      decide_eq_true_eq] at hpm
    obtain ⟨hsb, hcases⟩ := hpm
    have hne : ¬(wx = wx + o.1 ∧ wy = wy + o.2) := by
      intro hc
      exact wetOffsets_ne_zero o hmem ⟨by omega, by omega⟩
    have hgw : (Get s (wx + o.1) (wy + o.2)).type ≠ MaterialType.Water := by
      rcases hcases with (hc | hc) | hc
      · rw [hc]; decide
      · rw [hc.1]; decide
      · rw [hc.1.1]; decide
    dsimp only
    unfold wetAction
    dsimp only
    by_cases hS : (Get s (wx + o.1) (wy + o.2)).type = MaterialType.Sand
    · rw [if_pos hS]
      have hwf1 : WF (Set s (wx + o.1) (wy + o.2) MaterialType.WetSand 1) :=
        wf_of_sameDims (dims_Set _ _ _ _ _) hwf
      have hb1 : IsInBounds (Set s (wx + o.1) (wy + o.2) MaterialType.WetSand 1) wx wy = true := by
        rw [isInBounds_congr (dims_Set _ _ _ _ _)]
        exact hb
      have e1 := count_Set hwf hsb MaterialType.WetSand 1
      have e2 := count_Set hwf1 hb1 MaterialType.Empty 0
      rw [if_neg (by rw [hS]; decide), if_neg (by decide)] at e1
      have e3 : (Get (Set s (wx + o.1) (wy + o.2) MaterialType.WetSand 1) wx wy).type
          = (Get s wx wy).type := by rw [get_Set_ne hne]
      rw [e3, if_neg (by rw [hw]; decide),
        if_pos (rfl : MaterialType.Empty = MaterialType.Empty)] at e2
      have habs : ((Get s (wx + o.1) (wy + o.2)).type == MaterialType.Sand
          || decide ((Get s (wx + o.1) (wy + o.2)).soak < SOAK_THRESHOLD)) = true := by
        simp [hS]
      rw [if_pos habs]
      omega
    · rw [if_neg hS]
      have hW : (Get s (wx + o.1) (wy + o.2)).type = MaterialType.WetSand := by
        rcases hcases with (hc | hc) | hc
        · exact absurd hc hS
        · exact hc.1
        · exact hc.1.1
      by_cases hsoak : (Get s (wx + o.1) (wy + o.2)).soak < SOAK_THRESHOLD
      · rw [if_pos hsoak]
        have hwf1 : WF (Set s (wx + o.1) (wy + o.2) MaterialType.WetSand
            ((Get s (wx + o.1) (wy + o.2)).soak + 1)) :=
          wf_of_sameDims (dims_Set _ _ _ _ _) hwf
        have hb1 : IsInBounds (Set s (wx + o.1) (wy + o.2) MaterialType.WetSand
            ((Get s (wx + o.1) (wy + o.2)).soak + 1)) wx wy = true := by
          rw [isInBounds_congr (dims_Set _ _ _ _ _)]
          exact hb
        have e1 := count_Set hwf hsb MaterialType.WetSand
          ((Get s (wx + o.1) (wy + o.2)).soak + 1)
        have e2 := count_Set hwf1 hb1 MaterialType.Empty 0
        rw [if_neg (by rw [hW]; decide), if_neg (by decide)] at e1
        have e3 : (Get (Set s (wx + o.1) (wy + o.2) MaterialType.WetSand
            ((Get s (wx + o.1) (wy + o.2)).soak + 1)) wx wy).type
            = (Get s wx wy).type := by rw [get_Set_ne hne]
        rw [e3, if_neg (by rw [hw]; decide),
          if_pos (rfl : MaterialType.Empty = MaterialType.Empty)] at e2
        have habs : ((Get s (wx + o.1) (wy + o.2)).type == MaterialType.Sand
            || decide ((Get s (wx + o.1) (wy + o.2)).soak < SOAK_THRESHOLD)) = true := by
          simp [hsoak]
        rw [if_pos habs]
        omega
      · rw [if_neg hsoak]
        have habs : ((Get s (wx + o.1) (wy + o.2)).type == MaterialType.Sand
            || decide ((Get s (wx + o.1) (wy + o.2)).soak < SOAK_THRESHOLD)) = false := by
          simp [hS, hsoak]
        rw [if_neg (by rw [habs]; exact Bool.false_ne_true)]
        have := count_Swap hwf wx wy (wx + o.1) (wy + o.2)
        omega

theorem count_UpdateWater (rng : Nat → Bool) {s : Sim} (n : Nat) {x y : Int}
    (hwf : WF s) (hb : IsInBounds s x y = true)
    (hw : (Get s x y).type = MaterialType.Water) :
    countNonEmpty (UpdateWater rng s n x y).1 + (if absorbs s x y = true then 1 else 0)
      = countNonEmpty s := by
  unfold UpdateWater
  dsimp only
  by_cases ht : (TryWetSand s x y).2 = true
  · rw [if_pos ht]
    exact count_TryWetSand hwf hb hw
  · rw [if_neg ht]
    have hs1 := tryWetSand_false_eq (Bool.not_eq_true _ ▸ ht)
    have habs : absorbs s x y = false := by
      rw [tryWetSand_char] at ht
      unfold absorbs
      cases hf : wetOffsets.find? (wetMatch s x y) with
      | none => rfl
      | some o =>
        rw [hf] at ht
        simp at ht
    rw [habs]
    have hz : (if (false = true) then 1 else 0) = 0 := rfl
    rw [hz, Nat.add_zero, hs1]
    split_ifs <;>
      first
      | rfl
      | exact count_Move hwf _ _ _ _

theorem count_tickCell (rng : Nat → Bool) (acc : Sim × Nat) (p : Int × Int)
    (hwf : WF acc.1) (hb : IsInBounds acc.1 p.1 p.2 = true) :
    countNonEmpty (tickCell rng acc p).1 +
        (if (((acc.1.grid.getD (GetIndex acc.1 p.1 p.2).toNat defaultCell).type
              == MaterialType.Water) && absorbs acc.1 p.1 p.2) = true then 1 else 0)
      = countNonEmpty acc.1 := by
  unfold tickCell
  cases htype : (acc.1.grid.getD (GetIndex acc.1 p.1 p.2).toNat defaultCell).type with
  | Sand =>
    rw [if_neg (by simp)]
    rw [Nat.add_zero]
    exact count_UpdateSand rng _ _ _ hwf
  | WetSand =>
    rw [if_neg (by simp)]
    rw [Nat.add_zero]
    exact count_UpdateWetSand _ _ _ hwf
  | Water =>
    have hg : (Get acc.1 p.1 p.2).type = MaterialType.Water := by
      rw [get_inb hb, htype]
    rw [show ((MaterialType.Water == MaterialType.Water) && absorbs acc.1 p.1 p.2)
        = absorbs acc.1 p.1 p.2 by simp]
    exact count_UpdateWater rng _ hwf hb hg
  | Empty =>
    rw [if_neg (by simp)]
    rw [Nat.add_zero]
  | Count =>
    rw [if_neg (by simp)]
    rw [Nat.add_zero]

theorem mem_colsFrom {p : Int × Int} {ry : Int} :
    ∀ {c n : Nat}, p ∈ colsFrom ry c n →
      ∃ j : Nat, c ≤ j ∧ j < c + n ∧ p = ((j : Int), ry) := by
  intro c n
  induction n generalizing c with
  | zero => intro h; exact absurd h (List.not_mem_nil p)
  | succ m ih =>
    intro h
    rcases List.mem_cons.mp h with h | h
    · exact ⟨c, le_refl c, by omega, h⟩
    · obtain ⟨j, hj1, hj2, hj3⟩ := ih h
      exact ⟨j, by omega, by omega, hj3⟩

theorem mem_scanFrom {p : Int × Int} {w : Nat} :
    ∀ {h : Nat}, p ∈ scanFrom w h →
      ∃ j r : Nat, j < w ∧ r < h ∧ p = ((j : Int), (r : Int)) := by
  intro h
  induction h with
  | zero => intro hm; exact absurd hm (List.not_mem_nil p)
  | succ k ih =>
    intro hm
    rcases List.mem_append.mp hm with hm | hm
    · obtain ⟨j, _, hj2, hj3⟩ := mem_colsFrom hm
      exact ⟨j, k, by omega, by omega, hj3⟩
    · obtain ⟨j, r, hj, hr, hp⟩ := ih hm
      exact ⟨j, r, hj, by omega, hp⟩

theorem scan_mem_bounds {s : Sim} {p : Int × Int}
    (hm : p ∈ scanFrom s.width.toNat s.height.toNat) :
    IsInBounds s p.1 p.2 = true := by
  obtain ⟨j, r, hj, hr, hp⟩ := mem_scanFrom hm
  rw [hp, isInBounds_iff]
  constructor
  · omega
  constructor
  · omega
  constructor
  · omega
  · omega

theorem foldCnt_proj (rng : Nat → Bool) (L : List (Int × Int)) :
    ∀ (s : Sim) (n k : Nat),
      ((L.foldl (tickCellCnt rng) (s, n, k)).1, (L.foldl (tickCellCnt rng) (s, n, k)).2.1)
        = L.foldl (tickCell rng) (s, n) := by
  induction L with
  | nil => intro s n k; rfl
  | cons p rest ih =>
    intro s n k
    show ((rest.foldl (tickCellCnt rng) (tickCellCnt rng (s, n, k) p)).1, _)
      = rest.foldl (tickCell rng) (tickCell rng (s, n) p)
    have hstep : tickCellCnt rng (s, n, k) p
        = ((tickCell rng (s, n) p).1, (tickCell rng (s, n) p).2,
           if (((s.grid.getD (GetIndex s p.1 p.2).toNat defaultCell).type
               == MaterialType.Water) && absorbs s p.1 p.2) = true then k + 1 else k) := rfl
    rw [hstep]
    have := ih (tickCell rng (s, n) p).1 (tickCell rng (s, n) p).2
      (if (((s.grid.getD (GetIndex s p.1 p.2).toNat defaultCell).type
          == MaterialType.Water) && absorbs s p.1 p.2) = true then k + 1 else k)
    exact this

theorem count_foldCnt (rng : Nat → Bool) (L : List (Int × Int)) :
    ∀ (s : Sim) (n k : Nat), WF s →
      (∀ p ∈ L, IsInBounds s p.1 p.2 = true) →
      countNonEmpty (L.foldl (tickCellCnt rng) (s, n, k)).1
          + (L.foldl (tickCellCnt rng) (s, n, k)).2.2
        = countNonEmpty s + k
      ∧ SameDims s (L.foldl (tickCellCnt rng) (s, n, k)).1 := by
  induction L with
  | nil =>
    intro s n k _ _
    exact ⟨rfl, sameDims_refl s⟩
  | cons p rest ih =>
    intro s n k hwf hmem
    have hb : IsInBounds s p.1 p.2 = true := hmem p (List.mem_cons_self p rest)
    have hstep := count_tickCell rng (s, n) p hwf hb
    dsimp only at hstep
    have hd : SameDims s (tickCell rng (s, n) p).1 := dims_tickCell rng (s, n) p
    have hwf' : WF (tickCell rng (s, n) p).1 := wf_of_sameDims hd hwf
    have hmem' : ∀ q ∈ rest, IsInBounds (tickCell rng (s, n) p).1 q.1 q.2 = true := by
      intro q hq
      rw [isInBounds_congr hd]
      exact hmem q (List.mem_cons_of_mem p hq)
    have hsame : (if (((s.grid.getD (GetIndex s p.1 p.2).toNat defaultCell).type
          == MaterialType.Water) && absorbs s p.1 p.2) = true then k + 1 else k)
        = k + (if (((s.grid.getD (GetIndex s p.1 p.2).toNat defaultCell).type
            == MaterialType.Water) && absorbs s p.1 p.2) = true then 1 else 0) := by
      by_cases hcond : (((s.grid.getD (GetIndex s p.1 p.2).toNat defaultCell).type
          == MaterialType.Water) && absorbs s p.1 p.2) = true
      · rw [if_pos hcond, if_pos hcond]
      · rw [if_neg hcond, if_neg hcond]
        omega
    have hk' := ih (tickCell rng (s, n) p).1 (tickCell rng (s, n) p).2
      (k + (if (((s.grid.getD (GetIndex s p.1 p.2).toNat defaultCell).type
          == MaterialType.Water) && absorbs s p.1 p.2) = true then 1 else 0))
      hwf' hmem'
    have hfold : (p :: rest).foldl (tickCellCnt rng) (s, n, k)
        = rest.foldl (tickCellCnt rng)
            ((tickCell rng (s, n) p).1, (tickCell rng (s, n) p).2,
             k + (if (((s.grid.getD (GetIndex s p.1 p.2).toNat defaultCell).type
                 == MaterialType.Water) && absorbs s p.1 p.2) = true then 1 else 0)) := by
      rw [List.foldl_cons]
      have hone : tickCellCnt rng (s, n, k) p
          = ((tickCell rng (s, n) p).1, (tickCell rng (s, n) p).2,
             k + (if (((s.grid.getD (GetIndex s p.1 p.2).toNat defaultCell).type
                 == MaterialType.Water) && absorbs s p.1 p.2) = true then 1 else 0)) := by
        show ((tickCell rng (s, n) p).1, (tickCell rng (s, n) p).2,
            if (((s.grid.getD (GetIndex s p.1 p.2).toNat defaultCell).type
                == MaterialType.Water) && absorbs s p.1 p.2) = true then k + 1 else k) = _
        rw [hsame]
      rw [hone]
    rw [hfold]
    refine ⟨?_, sameDims_trans hd hk'.2⟩
    have h1 := hk'.1
    omega

/-- C2 (amended): one `tick()` call conserves the number of non-`Empty`
cells, except that every `try_wet_sand` absorption reaction — converting a
`Water`+`Sand` pair into `WetSand`(soak 1)+`Empty`, or absorbing the water
into an unsaturated `WetSand` neighbor — decreases the count by exactly one
per reaction; pure moves and swaps never create or destroy material. -/
theorem c2_mass_conservation (rng : Nat → Bool) (s : Sim) (n : Nat) (hwf : WF s) :
    countNonEmpty s = countNonEmpty (Update rng s n).1 + absorbCount rng s n := by
  have hmem : ∀ p ∈ scanFrom s.width.toNat s.height.toNat, IsInBounds s p.1 p.2 = true :=
    fun p hp => scan_mem_bounds hp
  have h := (count_foldCnt rng (scanFrom s.width.toNat s.height.toNat) s n 0 hwf hmem).1
  have hproj := foldCnt_proj rng (scanFrom s.width.toNat s.height.toNat) s n 0
  have h1 : ((scanFrom s.width.toNat s.height.toNat).foldl (tickCellCnt rng) (s, n, 0)).1
      = (Update rng s n).1 := by
    unfold Update
    exact congrArg Prod.fst hproj
  unfold absorbCount
  rw [← h1]
  omega

/-- Counterexample to C2 as stated: a grid with no `Sand` cell at all (one
`Water` above an unsaturated `WetSand`) still loses one non-`Empty` cell in
a tick, though no Water+Sand pair is converted. -/
theorem c2_mass_conservation_counterexample :
    (∀ c ∈ exWaterWet.grid, c.type ≠ MaterialType.Sand) ∧
      countNonEmpty exWaterWet = 2 ∧
      countNonEmpty (Update rngTrue exWaterWet 0).1 = 1 := by
  refine ⟨by decide, by decide, by decide⟩

/-- Witness for C2 on a concrete grid. -/
theorem c2_mass_conservation_witness :
    WF exWaterWet ∧
      countNonEmpty exWaterWet =
        countNonEmpty (Update rngTrue exWaterWet 0).1 + absorbCount rngTrue exWaterWet 0 :=
  ⟨by unfold WF; decide, c2_mass_conservation rngTrue exWaterWet 0 (by unfold WF; decide)⟩

/-- C6: for all nonnegative `smoothedResistance` and `frictionCoef`, the
damping factor `viscosity = 1 / (1 + smoothedResistance * frictionCoef)`
computed in the haptic update lies in the half-open interval `(0, 1]`. -/
theorem c6_viscosity_range (sr fc : ℚ) (hsr : 0 ≤ sr) (hfc : 0 ≤ fc) :
    0 < viscosity sr fc ∧ viscosity sr fc ≤ 1 := by
  unfold viscosity
  have hmul : (0 : ℚ) ≤ sr * fc := mul_nonneg hsr hfc
  have hpos : (0 : ℚ) < 1 + sr * fc := by linarith
  constructor
  · exact div_pos one_pos hpos
  · rw [div_le_one hpos]
    linarith

/-- Witness for C6 at concrete parameter values. -/
theorem c6_viscosity_range_witness :
    (0 : ℚ) ≤ 3 ∧ (0 : ℚ) ≤ 5 ∧ (0 < viscosity 3 5 ∧ viscosity 3 5 ≤ 1) :=
  ⟨by norm_num, by norm_num, c6_viscosity_range 3 5 (by norm_num) (by norm_num)⟩

/-- C7: in `Rail1D` mode with `hapkitScale = 500`, axis X and positional
(mouse) input, an input at `anchorPos.x + 1000` leaves `rawInputVal` clamped
to its maximum `0.08` (not the unclamped `2.0`), `devicePos.y` stays exactly
`anchorPos.y`, and `devicePos.x = anchorPos.x + rawInputVal * hapkitScale`. -/
theorem c7_rail_clamp (sqrtQ : ℚ → ℚ) (h : HapticState) (sim : Sim) (my rawm : ℚ)
    (hm : h.currentMode = ControlMode.Mode_1DOF)
    (ha : h.currentAxis = AxisMode.X_Axis)
    (hs : h.hapkitScale = 500) :
    (HapticUpdate sqrtQ h (Vec2.mk (h.anchorPos.x + 1000) my) rawm true sim).1.rawInputVal
        = 0.08 ∧
      (0.08 : ℚ) ≠ 2 ∧
      (HapticUpdate sqrtQ h (Vec2.mk (h.anchorPos.x + 1000) my) rawm true sim).1.devicePos.y
        = h.anchorPos.y ∧
      (HapticUpdate sqrtQ h (Vec2.mk (h.anchorPos.x + 1000) my) rawm true sim).1.devicePos.x
        = h.anchorPos.x +
            (HapticUpdate sqrtQ h (Vec2.mk (h.anchorPos.x + 1000) my) rawm true sim).1.rawInputVal
              * h.hapkitScale := by
  have hmode : ¬(h.currentMode = ControlMode.Mode_2DOF) := by
    rw [hm]
    decide
  have hr : (h.anchorPos.x + 1000 - h.anchorPos.x) / (500 : ℚ) = 2 := by
    ring
  have hclamp : max (-0.08 : ℚ) (min (0.08 : ℚ) 2) = 0.08 := by
    norm_num
  unfold HapticUpdate
  simp only [hm, ha, hs, if_neg hmode, if_true, if_pos rfl]
  rw [hr, hclamp]
  refine ⟨rfl, by norm_num, rfl, rfl⟩

theorem resCellAdd_eq (s : Sim) (cx cy r2 : ℚ) (acc : ℚ) (p : Int × Int) :
    resCellAdd s cx cy r2 acc p = acc + resWeight s cx cy r2 p.1 p.2 := by
  unfold resCellAdd resWeight
  cases hb : IsInBounds s p.1 p.2 with
  | false =>
    rw [if_pos rfl, if_neg (by simp), add_zero]
  | true =>
    rw [if_neg (by simp), if_pos rfl]
    dsimp only
    by_cases hd : ((p.1 : ℚ) - cx) * ((p.1 : ℚ) - cx)
        + ((p.2 : ℚ) - cy) * ((p.2 : ℚ) - cy) ≤ r2
    · rw [if_pos hd, if_pos hd]
      cases htype : (Get s p.1 p.2).type <;> simp [specWeight, htype]
    · rw [if_neg hd, if_neg hd, add_zero]

theorem foldl_add_eq_sum {α : Type} (f : α → ℚ) (g : ℚ → α → ℚ)
    (hg : ∀ a x, g a x = a + f x) :
    ∀ (L : List α) (c : ℚ), L.foldl g c = c + (L.map f).sum := by
  intro L
  induction L with
  | nil => intro c; simp
  | cons x xs ih =>
    intro c
    rw [List.foldl_cons, hg, ih, List.map_cons, List.sum_cons]
    ring

theorem sum_map_flatMap {α β : Type} (f : β → ℚ) (g : α → List β) (L : List α) :
    ((L.flatMap g).map f).sum = (L.map (fun a => ((g a).map f).sum)).sum := by
  induction L with
  | nil => rfl
  | cons x xs ih =>
    rw [List.flatMap_cons, List.map_append, List.sum_append, ih, List.map_cons,
      List.sum_cons]

theorem intRange_eq_cons {lo hi : Int} (h : lo ≤ hi) :
    intRange lo hi = lo :: intRange (lo + 1) hi := by
  unfold intRange
  have h1 : (hi + 1 - lo).toNat = (hi + 1 - (lo + 1)).toNat + 1 := by omega
  rw [h1, List.range_succ_eq_map, List.map_cons, List.map_map]
  congr 1
  · simp
  · apply List.map_congr_left
    intro i _
    show lo + ((Nat.succ i : Nat) : Int) = (lo + 1) + (i : Int)
    push_cast
    ring

theorem intRange_empty {lo hi : Int} (h : hi < lo) : intRange lo hi = [] := by
  unfold intRange
  have h1 : (hi + 1 - lo).toNat = 0 := by omega
  rw [h1]
  rfl

theorem sum_intRange_aux (f : Int → ℚ) (hi : Int) :
    ∀ (n : Nat) (lo : Int), (hi + 1 - lo).toNat = n →
      ((intRange lo hi).map f).sum = Finset.sum (Finset.Icc lo hi) f := by
  intro n
  induction n with
  | zero =>
    intro lo hn
    have hlt : hi < lo := by omega
    rw [intRange_empty hlt, Finset.Icc_eq_empty (by omega)]
    simp
  | succ m ih =>
    intro lo hn
    have hle : lo ≤ hi := by omega
    rw [intRange_eq_cons hle, List.map_cons, List.sum_cons]
    have hicc : Finset.Icc lo hi = insert lo (Finset.Icc (lo + 1) hi) := by
      ext z
      simp only [Finset.mem_Icc, Finset.mem_insert]
      omega
    rw [hicc, Finset.sum_insert (by simp only [Finset.mem_Icc]; omega)]
    rw [ih (lo + 1) (by omega)]

theorem sum_intRange (f : Int → ℚ) (lo hi : Int) :
    ((intRange lo hi).map f).sum = Finset.sum (Finset.Icc lo hi) f :=
  sum_intRange_aux f hi _ lo rfl

theorem sum_Icc_extend (f : Int → ℚ) {lo hi lo' hi' : Int} (h1 : lo' ≤ lo) (h2 : hi ≤ hi')
    (hz : ∀ x, lo' ≤ x → x ≤ hi' → (x < lo ∨ hi < x) → f x = 0) :
    Finset.sum (Finset.Icc lo hi) f = Finset.sum (Finset.Icc lo' hi') f := by
  apply Finset.sum_subset (Finset.Icc_subset_Icc h1 h2)
  intro x hx hnx
  rw [Finset.mem_Icc] at hx
  simp only [Finset.mem_Icc, not_and, not_le] at hnx
  refine hz x hx.1 hx.2 ?_
  by_cases hc : lo ≤ x
  · exact Or.inr (hnx hc)
  · exact Or.inl (by omega)

theorem getResistance_eq_sum (s : Sim) (cx cy radius : ℚ) :
    GetResistance s cx cy radius =
      Finset.sum (Finset.Icc (Int.floor (cy - radius)) (Int.ceil (cy + radius))) (fun y =>
        Finset.sum (Finset.Icc (Int.floor (cx - radius)) (Int.ceil (cx + radius))) (fun x =>
          resWeight s cx cy (radius * radius) x y)) := by
  unfold GetResistance
  dsimp only
  rw [foldl_add_eq_sum (fun p => resWeight s cx cy (radius * radius) p.1 p.2)
    (resCellAdd s cx cy (radius * radius)) (resCellAdd_eq s cx cy (radius * radius)),
    zero_add, sum_map_flatMap]
  have hrow : ∀ y : Int,
      (((intRange (Int.floor (cx - radius)) (Int.ceil (cx + radius))).map
          (fun x => (x, y))).map (fun p => resWeight s cx cy (radius * radius) p.1 p.2)).sum
        = Finset.sum (Finset.Icc (Int.floor (cx - radius)) (Int.ceil (cx + radius)))
            (fun x => resWeight s cx cy (radius * radius) x y) := by
    intro y
    rw [List.map_map]
    exact sum_intRange _ _ _
  calc ((intRange (Int.floor (cy - radius)) (Int.ceil (cy + radius))).map
        (fun y => (((intRange (Int.floor (cx - radius)) (Int.ceil (cx + radius))).map
          (fun x => (x, y))).map (fun p => resWeight s cx cy (radius * radius) p.1 p.2)).sum)).sum
      = ((intRange (Int.floor (cy - radius)) (Int.ceil (cy + radius))).map
        (fun y => Finset.sum (Finset.Icc (Int.floor (cx - radius)) (Int.ceil (cx + radius)))
          (fun x => resWeight s cx cy (radius * radius) x y))).sum := by
        congr 1
        exact List.map_congr_left (fun y _ => hrow y)
    _ = _ := sum_intRange _ _ _

theorem resistanceSpec_eq_sum (s : Sim) (cx cy radius : ℚ) :
    resistanceSpec s cx cy radius =
      Finset.sum (Finset.Icc 0 (s.height - 1)) (fun y =>
        Finset.sum (Finset.Icc 0 (s.width - 1)) (fun x =>
          resWeight s cx cy (radius * radius) x y)) := by
  unfold resistanceSpec
  apply Finset.sum_congr rfl
  intro y hy
  apply Finset.sum_congr rfl
  intro x hx
  rw [Finset.mem_Icc] at hy hx
  have hb : IsInBounds s x y = true := by
    rw [isInBounds_iff]
    omega
  unfold resWeight
  rw [if_pos hb]

theorem abs_le_of_sq_le_sq {a r : ℚ} (hr : 0 ≤ r) (h : a * a ≤ r * r) :
    -r ≤ a ∧ a ≤ r := by
  constructor <;> nlinarith

theorem resWeight_zero_x {s : Sim} {cx cy radius : ℚ} (hr : 0 ≤ radius) {x y : Int}
    (hx : x < Int.floor (cx - radius) ∨ Int.ceil (cx + radius) < x) :
    resWeight s cx cy (radius * radius) x y = 0 := by
  unfold resWeight
  split_ifs with hb hd
  · exfalso
    have hdx : ((x : ℚ) - cx) * ((x : ℚ) - cx) ≤ radius * radius := by nlinarith
    obtain ⟨hl, hu⟩ := abs_le_of_sq_le_sq hr hdx
    have hfl : Int.floor (cx - radius) ≤ x := by
      have h1 : ((Int.floor (cx - radius) : Int) : ℚ) ≤ cx - radius := Int.floor_le _
      have h2 : cx - radius ≤ (x : ℚ) := by linarith
      exact_mod_cast h1.trans h2
    have hcl : x ≤ Int.ceil (cx + radius) := by
      have h1 : (x : ℚ) ≤ cx + radius := by linarith
      have h2 : cx + radius ≤ ((Int.ceil (cx + radius) : Int) : ℚ) := Int.le_ceil _
      exact_mod_cast h1.trans h2
    omega
  · rfl
  · rfl

theorem resWeight_zero_y {s : Sim} {cx cy radius : ℚ} (hr : 0 ≤ radius) {x y : Int}
    (hy : y < Int.floor (cy - radius) ∨ Int.ceil (cy + radius) < y) :
    resWeight s cx cy (radius * radius) x y = 0 := by
  unfold resWeight
  split_ifs with hb hd
  · exfalso
    have hdy : ((y : ℚ) - cy) * ((y : ℚ) - cy) ≤ radius * radius := by nlinarith
    obtain ⟨hl, hu⟩ := abs_le_of_sq_le_sq hr hdy
    have hfl : Int.floor (cy - radius) ≤ y := by
      have h1 : ((Int.floor (cy - radius) : Int) : ℚ) ≤ cy - radius := Int.floor_le _
      have h2 : cy - radius ≤ (y : ℚ) := by linarith
      exact_mod_cast h1.trans h2
    have hcl : y ≤ Int.ceil (cy + radius) := by
      have h1 : (y : ℚ) ≤ cy + radius := by linarith
      have h2 : cy + radius ≤ ((Int.ceil (cy + radius) : Int) : ℚ) := Int.le_ceil _
      exact_mod_cast h1.trans h2
    omega
  · rfl
  · rfl

theorem resWeight_zero_oob {s : Sim} {cx cy r2 : ℚ} {x y : Int}
    (hb : IsInBounds s x y = false) : resWeight s cx cy r2 x y = 0 := by
  unfold resWeight
  rw [if_neg (by simp [hb])]

theorem isInBounds_false_of {s : Sim} {x y : Int}
    (h : x < 0 ∨ s.width ≤ x ∨ y < 0 ∨ s.height ≤ y) : IsInBounds s x y = false := by
  cases hb : IsInBounds s x y with
  | false => rfl
  | true =>
    have := (isInBounds_iff s x y).mp hb
    omega

/-- C5 (amended): for every grid state and nonnegative radius,
`resistance(cx, cy, radius)` equals the sum over every in-bounds cell whose
center satisfies the inclusive squared-distance test of the per-material
weight (`Sand → 0.1`, `WetSand → soak * 0.02 + 0.1`, `Water → 0.02`,
`Empty → 0`); on an all-`Empty` grid it is exactly `0`, whatever the
radius. -/
theorem c5_resistance_spec (s : Sim) (cx cy radius : ℚ) :
    (0 ≤ radius → GetResistance s cx cy radius = resistanceSpec s cx cy radius) ∧
      ((∀ c ∈ s.grid, c.type = MaterialType.Empty) →
        GetResistance s cx cy radius = 0) := by
  constructor
  · intro hr
    rw [getResistance_eq_sum, resistanceSpec_eq_sum]
    have hXlo : min (Int.floor (cx - radius)) 0 ≤ Int.floor (cx - radius) := min_le_left _ _
    have hXlo' : min (Int.floor (cx - radius)) 0 ≤ 0 := min_le_right _ _
    have hXhi : Int.ceil (cx + radius) ≤ max (Int.ceil (cx + radius)) (s.width - 1) :=
      le_max_left _ _
    have hXhi' : s.width - 1 ≤ max (Int.ceil (cx + radius)) (s.width - 1) := le_max_right _ _
    have hYlo : min (Int.floor (cy - radius)) 0 ≤ Int.floor (cy - radius) := min_le_left _ _
    have hYlo' : min (Int.floor (cy - radius)) 0 ≤ 0 := min_le_right _ _
    have hYhi : Int.ceil (cy + radius) ≤ max (Int.ceil (cy + radius)) (s.height - 1) :=
      le_max_left _ _
    have hYhi' : s.height - 1 ≤ max (Int.ceil (cy + radius)) (s.height - 1) := le_max_right _ _
    have hcode : Finset.sum (Finset.Icc (Int.floor (cy - radius)) (Int.ceil (cy + radius)))
          (fun y => Finset.sum (Finset.Icc (Int.floor (cx - radius)) (Int.ceil (cx + radius)))
            (fun x => resWeight s cx cy (radius * radius) x y))
        = Finset.sum (Finset.Icc (min (Int.floor (cy - radius)) 0)
              (max (Int.ceil (cy + radius)) (s.height - 1)))
            (fun y => Finset.sum (Finset.Icc (min (Int.floor (cx - radius)) 0)
              (max (Int.ceil (cx + radius)) (s.width - 1)))
              (fun x => resWeight s cx cy (radius * radius) x y)) := by
      rw [Finset.sum_congr rfl (fun y _ => sum_Icc_extend _ hXlo hXhi
        (fun x _ _ hout => resWeight_zero_x hr hout))]
      exact sum_Icc_extend _ hYlo hYhi
        (fun y _ _ hout => Finset.sum_eq_zero (fun x _ => resWeight_zero_y hr hout))
    have hspec : Finset.sum (Finset.Icc 0 (s.height - 1))
          (fun y => Finset.sum (Finset.Icc 0 (s.width - 1))
            (fun x => resWeight s cx cy (radius * radius) x y))
        = Finset.sum (Finset.Icc (min (Int.floor (cy - radius)) 0)
              (max (Int.ceil (cy + radius)) (s.height - 1)))
            (fun y => Finset.sum (Finset.Icc (min (Int.floor (cx - radius)) 0)
              (max (Int.ceil (cx + radius)) (s.width - 1)))
              (fun x => resWeight s cx cy (radius * radius) x y)) := by
      rw [Finset.sum_congr rfl (fun y _ => sum_Icc_extend _ hXlo' hXhi'
        (fun x _ _ hout => resWeight_zero_oob (isInBounds_false_of (by omega))))]
      exact sum_Icc_extend _ hYlo' hYhi'
        (fun y _ _ hout => Finset.sum_eq_zero (fun x _ =>
          resWeight_zero_oob (isInBounds_false_of (by omega))))
    rw [hcode, hspec]
  · intro hall
    rw [getResistance_eq_sum]
    apply Finset.sum_eq_zero
    intro y _
    apply Finset.sum_eq_zero
    intro x _
    unfold resWeight
    split_ifs with hb hd
    · have hget : (Get s x y).type = MaterialType.Empty := by
        rw [get_inb hb]
        rcases Nat.lt_or_ge (GetIndex s x y).toNat s.grid.length with hlt | hge
        · rw [List.getD_eq_getElem _ _ hlt]
          exact hall _ (List.getElem_mem hlt)
        · rw [List.getD_eq_default _ _ hge]
          rfl
      simp [specWeight, hget]
    · rfl
    · rfl

/-- Counterexample to C5 as stated: with a negative radius the scan box of
`GetResistance` is empty and the function returns `0`, while the claimed
sum over cells within squared distance `radius^2` is `0.1` (the single
`Sand` cell qualifies, since `(-1)^2 = 1`). -/
theorem c5_resistance_spec_counterexample :
    GetResistance exSand1 0 0 (-1) = 0 ∧
      resistanceSpec exSand1 0 0 (-1) = 0.1 ∧
      GetResistance exSand1 0 0 (-1) ≠ resistanceSpec exSand1 0 0 (-1) := by
  have hg : GetResistance exSand1 0 0 (-1) = 0 := by
    unfold GetResistance
    dsimp only
    have h1 : Int.floor ((0 : ℚ) - (-1)) = 1 := by
      rw [show ((0 : ℚ) - (-1)) = ((1 : Int) : ℚ) by norm_num, Int.floor_intCast]
    have h2 : Int.ceil ((0 : ℚ) + (-1)) = -1 := by
      rw [show ((0 : ℚ) + (-1)) = ((-1 : Int) : ℚ) by norm_num, Int.ceil_intCast]
    rw [h1, h2, intRange_empty (by norm_num)]
    rfl
  have hs : resistanceSpec exSand1 0 0 (-1) = 0.1 := by
    unfold resistanceSpec
    have hh : exSand1.height - 1 = 0 := rfl
    have hw : exSand1.width - 1 = 0 := rfl
    rw [hh, hw, Finset.Icc_self, Finset.sum_singleton, Finset.sum_singleton,
      if_pos (by norm_num)]
    rfl
  exact ⟨hg, hs, by rw [hg, hs]; norm_num⟩

/-- Witness for C5: both amended conjuncts at concrete inputs. -/
theorem c5_resistance_spec_witness :
    ((0 : ℚ) ≤ 1 ∧ GetResistance exSand1 0 0 1 = resistanceSpec exSand1 0 0 1) ∧
      ((∀ c ∈ exEmpty1.grid, c.type = MaterialType.Empty) ∧
        GetResistance exEmpty1 0 0 0 = 0) :=
  ⟨⟨by norm_num, (c5_resistance_spec exSand1 0 0 1).1 (by norm_num)⟩,
   ⟨by decide, (c5_resistance_spec exEmpty1 0 0 0).2 (by decide)⟩⟩

theorem length_mkGrid (w h : Int) (f : Int → Int → Cell) :
    (mkGrid w h f).length = w.toNat * h.toNat := by
  unfold mkGrid
  rw [List.length_map, List.length_range]

theorem wf_twoCellGrid (w h x y : Int) : WF (twoCellGrid w h x y) :=
  length_mkGrid w h (twoCellF x y)

theorem get_twoCellGrid {w h x y cx cy : Int}
    (hb : IsInBounds (twoCellGrid w h x y) cx cy = true) :
    Get (twoCellGrid w h x y) cx cy = twoCellF x y cx cy := by
  have hbb := (isInBounds_iff (twoCellGrid w h x y) cx cy).mp hb
  obtain ⟨hx0, hxw, hy0, hyh⟩ := hbb
  have hxw' : cx < w := hxw
  have hyh' : cy < h := hyh
  rw [get_inb hb]
  obtain ⟨a, rfl⟩ : ∃ a : Nat, cx = (a : Int) := ⟨cx.toNat, (Int.toNat_of_nonneg hx0).symm⟩
  obtain ⟨b, rfl⟩ : ∃ b : Nat, cy = (b : Int) := ⟨cy.toNat, (Int.toNat_of_nonneg hy0).symm⟩
  obtain ⟨W, rfl⟩ : ∃ W : Nat, w = (W : Int) :=
    ⟨w.toNat, (Int.toNat_of_nonneg (by omega)).symm⟩
  obtain ⟨H, rfl⟩ : ∃ H : Nat, h = (H : Int) :=
    ⟨h.toNat, (Int.toNat_of_nonneg (by omega)).symm⟩
  have hidx : (GetIndex (twoCellGrid (W : Int) (H : Int) x y) (a : Int) (b : Int)).toNat
      = b * W + a := by
    unfold GetIndex
    rw [show ((b : Int) * ((twoCellGrid (W : Int) (H : Int) x y).width) + (a : Int))
        = ((b * W + a : Nat) : Int) by push_cast; rfl, Int.toNat_natCast]
  have haW : a < W := by exact_mod_cast hxw'
  have hbH : b < H := by exact_mod_cast hyh'
  have hlen : b * W + a < W * H := by
    calc b * W + a < b * W + W := by omega
    _ = (b + 1) * W := by ring
    _ ≤ H * W := Nat.mul_le_mul_right W (by omega)
    _ = W * H := Nat.mul_comm H W
  rw [hidx]
  show (mkGrid (W : Int) (H : Int) (twoCellF x y)).getD (b * W + a) defaultCell = _
  rw [List.getD_eq_getElem _ _ (by rw [length_mkGrid]; simpa using hlen)]
  unfold mkGrid
  rw [List.getElem_map, List.getElem_range]
  have hc : ((W : Int)).toNat = W := Int.toNat_natCast W
  rw [hc]
  have hW0 : 0 < W := by omega
  have hmod : (b * W + a) % W = a := by
    rw [Nat.add_comm (b * W) a, Nat.add_mul_mod_self_right, Nat.mod_eq_of_lt haW]
  have hdiv : (b * W + a) / W = b := by
    rw [Nat.add_comm (b * W) a, Nat.add_mul_div_right _ _ hW0, Nat.div_eq_of_lt haW,
      Nat.zero_add]
  rw [hmod, hdiv]

theorem twoCellF_other {x y cx cy : Int} (h1 : ¬(cx = x ∧ cy = y))
    (h2 : ¬(cx = x ∧ cy = y + 1)) : twoCellF x y cx cy = defaultCell := by
  unfold twoCellF
  rw [if_neg h1, if_neg h2]

theorem colsFrom_append (ry : Int) (b : Nat) :
    ∀ (a c : Nat), colsFrom ry c (a + b) = colsFrom ry c a ++ colsFrom ry (c + a) b := by
  intro a
  induction a with
  | zero =>
    intro c
    show colsFrom ry c (0 + b) = [] ++ colsFrom ry (c + 0) b
    rw [Nat.zero_add, List.nil_append, Nat.add_zero]
  | succ m ih =>
    intro c
    show colsFrom ry c ((m + 1) + b) = (((c : Int), ry) :: colsFrom ry (c + 1) m)
      ++ colsFrom ry (c + (m + 1)) b
    have hn : (m + 1) + b = (m + b) + 1 := by omega
    rw [hn]
    show ((c : Int), ry) :: colsFrom ry (c + 1) (m + b) = _
    rw [List.cons_append]
    congr 1
    rw [ih (c + 1)]
    have he : c + 1 + m = c + (m + 1) := by omega
    rw [he]

theorem scanFrom_decomp (w : Nat) (k : Nat) :
    ∀ d : Nat, scanFrom w (k + d) = rowsBetween w k d ++ scanFrom w k := by
  intro d
  induction d with
  | zero => rfl
  | succ m ih =>
    show colsFrom ((k + m : Nat) : Int) 0 w ++ scanFrom w (k + m)
      = (colsFrom ((k + m : Nat) : Int) 0 w ++ rowsBetween w k m) ++ scanFrom w k
    rw [ih, List.append_assoc]

theorem mem_rowsBetween {p : Int × Int} {w k : Nat} :
    ∀ {d : Nat}, p ∈ rowsBetween w k d →
      ∃ j r : Nat, j < w ∧ k ≤ r ∧ r < k + d ∧ p = ((j : Int), (r : Int)) := by
  intro d
  induction d with
  | zero => intro h; exact absurd h (List.not_mem_nil p)
  | succ m ih =>
    intro h
    rcases List.mem_append.mp h with h | h
    · obtain ⟨j, _, hj2, hj3⟩ := mem_colsFrom h
      exact ⟨j, k + m, by omega, by omega, by omega, hj3⟩
    · obtain ⟨j, r, hj, hk, hr, hp⟩ := ih h
      exact ⟨j, r, hj, hk, by omega, hp⟩

theorem foldl_tick_id (rng : Nat → Bool) (L : List (Int × Int)) :
    ∀ (s : Sim) (n : Nat),
      (∀ p ∈ L, IsInBounds s p.1 p.2 = true ∧ (Get s p.1 p.2).type = MaterialType.Empty) →
      L.foldl (tickCell rng) (s, n) = (s, n) := by
  induction L with
  | nil => intro s n _; rfl
  | cons p rest ih =>
    intro s n hall
    have hp := hall p (List.mem_cons_self p rest)
    have hstep : tickCell rng (s, n) p = (s, n) := by
      unfold tickCell
      have hread : ((s, n).1.grid.getD (GetIndex (s, n).1 p.1 p.2).toNat defaultCell).type
          = MaterialType.Empty := by
        show (s.grid.getD (GetIndex s p.1 p.2).toNat defaultCell).type = MaterialType.Empty
        rw [← get_inb hp.1]
        exact hp.2
      rw [hread]
    rw [List.foldl_cons, hstep]
    exact ih s n (fun q hq => hall q (List.mem_cons_of_mem _ hq))

theorem wetMatch_false_aux {s : Sim} {wx wy : Int} (o : Int × Int)
    (h : IsInBounds s (wx + o.1) (wy + o.2) = true →
      (Get s (wx + o.1) (wy + o.2)).type = MaterialType.Empty) :
    wetMatch s wx wy o = false := by
  unfold wetMatch
  dsimp only
  cases hb : IsInBounds s (wx + o.1) (wy + o.2) with
  | false => rfl
  | true =>
    have hg := h hb
    simp [hg]

theorem updateSand_move_down {s : Sim} (rng : Nat → Bool) (n : Nat) {x y : Int}
    (hh : ¬ s.height ≤ y + 1 + 1)
    (h1 : IsInBounds s x (y + 1) = true)
    (h2 : IsInBounds s x (y + 2) = true)
    (he : (Get s x (y + 1 + 1)).type = MaterialType.Empty) :
    UpdateSand rng s n x (y + 1) =
      (Set (Set s x (y + 2) (Get s x (y + 1)).type (Get s x (y + 1)).soak) x (y + 1)
         MaterialType.Empty 0, n) := by
  unfold UpdateSand
  dsimp only
  rw [if_neg hh, if_neg (by rw [he]; decide), if_pos he]
  have h2' : IsInBounds s x (y + 1 + 1) = true := by
    rw [show y + 1 + 1 = y + 2 by ring]
    exact h2
  rw [move_succ h1 h2' he]
  rw [show y + 1 + 1 = y + 2 by ring]

theorem updateSand_bottom {s : Sim} (rng : Nat → Bool) (n : Nat) {x y : Int}
    (hh : s.height ≤ y + 1) :
    UpdateSand rng s n x y = (s, n) := by
  unfold UpdateSand
  rw [if_pos hh]

/-- C4 (amended): starting from a grid containing exactly one `Water` cell
at `(x, y)` and one `Sand` cell directly below it at `(x, y+1)`, one
`tick()` absorbs the water instead of swapping the two cells: afterwards the
grid is `Empty` everywhere except for a single `WetSand` cell with
`soak = 1` at `(x, min (y+2) (h-1))` — the sand first falls one row when
`y+1` is not the bottom row, and is wetted in place otherwise. -/
theorem c4_water_above_sand_amended (rng : Nat → Bool) (n : Nat) (w h x y : Int)
    (hx0 : 0 ≤ x) (hxw : x < w) (hy0 : 0 ≤ y) (hyh : y + 1 < h) :
    (Update rng (twoCellGrid w h x y) n).1.width = w ∧
      (Update rng (twoCellGrid w h x y) n).1.height = h ∧
      ∀ cx cy : Int, IsInBounds (Update rng (twoCellGrid w h x y) n).1 cx cy = true →
        Get (Update rng (twoCellGrid w h x y) n).1 cx cy
          = (if cx = x ∧ cy = min (y + 2) (h - 1)
             then { type := MaterialType.WetSand, soak := 1 }
             else defaultCell) := by
  obtain ⟨a, rfl⟩ : ∃ a : Nat, x = (a : Int) := ⟨x.toNat, (Int.toNat_of_nonneg hx0).symm⟩
  obtain ⟨b, rfl⟩ : ∃ b : Nat, y = (b : Int) := ⟨y.toNat, (Int.toNat_of_nonneg hy0).symm⟩
  obtain ⟨W, rfl⟩ : ∃ W : Nat, w = (W : Int) :=
    ⟨w.toNat, (Int.toNat_of_nonneg (by omega)).symm⟩
  obtain ⟨H, rfl⟩ : ∃ H : Nat, h = (H : Int) :=
    ⟨h.toNat, (Int.toNat_of_nonneg (by omega)).symm⟩
  have haW : a < W := by exact_mod_cast hxw
  have hbH : b + 1 < H := by exact_mod_cast hyh
  set s0 : Sim := twoCellGrid (W : Int) (H : Int) (a : Int) (b : Int) with hs0
  have hwf0 : WF s0 := wf_twoCellGrid _ _ _ _
  have hbnd0 : ∀ (j r : Nat), j < W → r < H →
      IsInBounds s0 ((j : Int)) ((r : Int)) = true := by
    intro j r hj hr
    rw [isInBounds_iff]
    refine ⟨Int.natCast_nonneg j, ?_, Int.natCast_nonneg r, ?_⟩
    · show (j : Int) < (W : Int)
      exact_mod_cast hj
    · show (r : Int) < (H : Int)
      exact_mod_cast hr
  have hg0 : ∀ (cx cy : Int), IsInBounds s0 cx cy = true →
      ¬(cx = (a : Int) ∧ cy = (b : Int)) → ¬(cx = (a : Int) ∧ cy = (b : Int) + 1) →
      Get s0 cx cy = defaultCell := by
    intro cx cy hbc h1 h2
    rw [get_twoCellGrid hbc, twoCellF_other h1 h2]
  have hgW : Get s0 (a : Int) (b : Int) = { type := MaterialType.Water, soak := 0 } := by
    rw [get_twoCellGrid (hbnd0 a b haW (by omega))]
    unfold twoCellF
    rw [if_pos ⟨rfl, rfl⟩]
  have hgS : Get s0 (a : Int) ((b : Int) + 1) =
      { type := MaterialType.Sand, soak := 0 } := by
    have hb1 : IsInBounds s0 (a : Int) ((b : Int) + 1) = true := by
      have := hbnd0 a (b + 1) haW hbH
      rw [show (((b + 1 : Nat)) : Int) = (b : Int) + 1 by push_cast; ring] at this
      exact this
    rw [get_twoCellGrid hb1]
    unfold twoCellF
    rw [if_neg (by omega), if_pos ⟨rfl, rfl⟩]
  have hupd : Update rng s0 n = (scanFrom W H).foldl (tickCell rng) (s0, n) := by
    unfold Update
    rw [show s0.width.toNat = W by rw [hs0]; exact Int.toNat_natCast W,
      show s0.height.toNat = H by rw [hs0]; exact Int.toNat_natCast H]
  have hry1 : (((b + 1 : Nat)) : Int) = (b : Int) + 1 := by push_cast; ring
  obtain ⟨R, hR⟩ : ∃ R : Nat, W = a + (R + 1) := ⟨W - a - 1, by omega⟩
  rcases lt_or_eq_of_le (show b + 2 ≤ H by omega) with hcase | hcase
  · -- Case A: the sand is not in the bottom row; it falls to (a, b+2) first.
    obtain ⟨d, hd⟩ : ∃ d : Nat, H = (b + 2) + d := ⟨H - (b + 2), by omega⟩
    -- the state after the sand step
    set s1 : Sim := Set (Set s0 (a : Int) ((b : Int) + 2) MaterialType.Sand 0)
      (a : Int) ((b : Int) + 1) MaterialType.Empty 0 with hs1
    have hd01 : SameDims s0 (Set s0 (a : Int) ((b : Int) + 2) MaterialType.Sand 0) :=
      dims_Set _ _ _ _ _
    have hd1 : SameDims s0 s1 :=
      sameDims_trans hd01 (dims_Set _ _ _ _ _)
    have hwf1 : WF s1 := wf_of_sameDims hd1 hwf0
    have hb2 : IsInBounds s0 (a : Int) ((b : Int) + 2) = true := by
      have := hbnd0 a (b + 2) haW (by omega)
      rw [show (((b + 2 : Nat)) : Int) = (b : Int) + 2 by push_cast; ring] at this
      exact this
    have hb1' : IsInBounds s0 (a : Int) ((b : Int) + 1) = true := by
      have := hbnd0 a (b + 1) haW (by omega)
      rw [hry1] at this
      exact this
    have hg1 : ∀ (cx cy : Int), ¬(cx = (a : Int) ∧ cy = (b : Int) + 1) →
        ¬(cx = (a : Int) ∧ cy = (b : Int) + 2) → Get s1 cx cy = Get s0 cx cy := by
      intro cx cy h1 h2
      rw [hs1, get_Set_ne h1, get_Set_ne h2]
    have hg1S : Get s1 (a : Int) ((b : Int) + 2) =
        { type := MaterialType.Sand, soak := 0 } := by
      rw [hs1, get_Set_ne (by omega),
        get_Set_self hwf0 hb2]
    have hg1E : Get s1 (a : Int) ((b : Int) + 1) = defaultCell := by
      rw [hs1, get_Set_self (wf_of_sameDims hd01 hwf0)
        (by rw [isInBounds_congr hd01]; exact hb1')]
      rfl
    have hg1W : Get s1 (a : Int) (b : Int) = { type := MaterialType.Water, soak := 0 } := by
      rw [hg1 (a : Int) (b : Int) (by omega) (by omega), hgW]
    -- the sand step
    have hstep1 : tickCell rng (s0, n) ((a : Int), (b : Int) + 1) = (s1, n) := by
      unfold tickCell
      have hread : ((s0, n).1.grid.getD
          (GetIndex (s0, n).1 ((a : Int), (b : Int) + 1).1 ((a : Int), (b : Int) + 1).2).toNat
          defaultCell).type = MaterialType.Sand := by
        show (s0.grid.getD (GetIndex s0 (a : Int) ((b : Int) + 1)).toNat defaultCell).type
          = MaterialType.Sand
        rw [← get_inb hb1', hgS]
      rw [hread]
      show UpdateSand rng s0 n (a : Int) ((b : Int) + 1) = (s1, n)
      have hgE2 : (Get s0 (a : Int) ((b : Int) + 1 + 1)).type = MaterialType.Empty := by
        rw [show (b : Int) + 1 + 1 = (b : Int) + 2 by ring,
          hg0 _ _ hb2 (by omega) (by omega)]
        rfl
      rw [updateSand_move_down rng n (by rw [hs0]; show ¬ (H : Int) ≤ (b : Int) + 1 + 1; omega)
        hb1' hb2 hgE2]
      rw [hgS]
    -- TryWetSand on s1 at the water cell finds the sand via offset (0, 2)
    have hbc1 : ∀ cx cy, IsInBounds s1 cx cy = IsInBounds s0 cx cy := by
      intro cx cy
      exact isInBounds_congr hd1 cx cy
    have hmOff : ∀ (o : Int × Int), o ∈ [((1 : Int), (0 : Int)), (-1, 0), (0, -1), (1, 1),
        (-1, 1), (1, -1), (-1, -1)] →
        wetMatch s1 (a : Int) (b : Int) o = false := by
      intro o ho
      apply wetMatch_false_aux
      intro hbo
      rw [hbc1] at hbo
      have hne1 : ¬((a : Int) + o.1 = (a : Int) ∧ (b : Int) + o.2 = (b : Int) + 1) := by
        fin_cases ho <;> omega
      have hne2 : ¬((a : Int) + o.1 = (a : Int) ∧ (b : Int) + o.2 = (b : Int) + 2) := by
        fin_cases ho <;> omega
      rw [hg1 _ _ hne1 hne2]
      have hne3 : ¬((a : Int) + o.1 = (a : Int) ∧ (b : Int) + o.2 = (b : Int)) := by
        fin_cases ho <;> omega
      rw [hg0 _ _ hbo hne3 hne1]
      rfl
    have hm01 : wetMatch s1 (a : Int) (b : Int) (0, 1) = false := by
      apply wetMatch_false_aux
      intro hbo
      have h1 : (a : Int) + (0, 1).1 = (a : Int) := by norm_num
      have h2 : (b : Int) + ((0 : Int), (1 : Int)).2 = (b : Int) + 1 := rfl
      rw [h1, h2, hg1E]
      rfl
    have hm02 : wetMatch s1 (a : Int) (b : Int) (0, 2) = true := by
      unfold wetMatch
      dsimp only
      rw [show (a : Int) + 0 = (a : Int) by ring]
      rw [hbc1]
      have hb2' : IsInBounds s0 (a : Int) ((b : Int) + 2) = true := hb2
      rw [hb2', hg1S]
      rfl
    have hfind : wetOffsets.find? (wetMatch s1 (a : Int) (b : Int)) = some (0, 2) := by
      unfold wetOffsets
      rw [List.find?_cons_of_neg _ (by rw [hm01]; exact Bool.false_ne_true),
        List.find?_cons_of_neg _ (by rw [hmOff (1, 0) (by simp)]; exact Bool.false_ne_true),
        List.find?_cons_of_neg _ (by rw [hmOff (-1, 0) (by simp)]; exact Bool.false_ne_true),
        List.find?_cons_of_neg _ (by rw [hmOff (0, -1) (by simp)]; exact Bool.false_ne_true),
        List.find?_cons_of_neg _ (by rw [hmOff (1, 1) (by simp)]; exact Bool.false_ne_true),
        List.find?_cons_of_neg _ (by rw [hmOff (-1, 1) (by simp)]; exact Bool.false_ne_true),
        List.find?_cons_of_neg _ (by rw [hmOff (1, -1) (by simp)]; exact Bool.false_ne_true),
        List.find?_cons_of_neg _ (by rw [hmOff (-1, -1) (by simp)]; exact Bool.false_ne_true),
        List.find?_cons_of_pos _ hm02]
    set s2 : Sim := Set (Set s1 (a : Int) ((b : Int) + 2) MaterialType.WetSand 1)
      (a : Int) (b : Int) MaterialType.Empty 0 with hs2
    have hd12 : SameDims s1 (Set s1 (a : Int) ((b : Int) + 2) MaterialType.WetSand 1) :=
      dims_Set _ _ _ _ _
    have hd2 : SameDims s0 s2 :=
      sameDims_trans hd1 (sameDims_trans hd12 (dims_Set _ _ _ _ _))
    have hwf2 : WF s2 := wf_of_sameDims hd2 hwf0
    have htws : TryWetSand s1 (a : Int) (b : Int) = (s2, true) := by
      rw [tryWetSand_char, hfind]
      unfold wetAction
      dsimp only
      rw [show (a : Int) + 0 = (a : Int) by ring, hg1S]
      rw [if_pos rfl]
    -- the water step
    have hstep2 : tickCell rng (s1, n) ((a : Int), (b : Int)) = (s2, n) := by
      unfold tickCell
      have hread : ((s1, n).1.grid.getD
          (GetIndex (s1, n).1 ((a : Int), (b : Int)).1 ((a : Int), (b : Int)).2).toNat
          defaultCell).type = MaterialType.Water := by
        show (s1.grid.getD (GetIndex s1 (a : Int) (b : Int)).toNat defaultCell).type
          = MaterialType.Water
        rw [← get_inb (by rw [hbc1]; exact hbnd0 a b haW (by omega)), hg1W]
      rw [hread]
      show UpdateWater rng s1 n (a : Int) (b : Int) = (s2, n)
      unfold UpdateWater
      rw [htws]
      rfl
    -- characterization of the final state
    have hg2 : ∀ (cx cy : Int), IsInBounds s0 cx cy = true →
        Get s2 cx cy = (if cx = (a : Int) ∧ cy = (b : Int) + 2
          then { type := MaterialType.WetSand, soak := 1 } else defaultCell) := by
      intro cx cy hbc
      by_cases hq2 : cx = (a : Int) ∧ cy = (b : Int) + 2
      · rw [if_pos hq2, hs2, hq2.1, hq2.2, get_Set_ne (by omega),
          get_Set_self hwf1 (by rw [hbc1]; exact hb2)]
      · rw [if_neg hq2]
        by_cases hq0 : cx = (a : Int) ∧ cy = (b : Int)
        · rw [hq0.1, hq0.2, hs2,
            get_Set_self (wf_of_sameDims (sameDims_trans hd1 hd12) hwf0)
              (by rw [isInBounds_congr hd12, hbc1]; exact hbnd0 a b haW (by omega))]
          rfl
        · rw [hs2, get_Set_ne hq0, get_Set_ne hq2]
          by_cases hq1 : cx = (a : Int) ∧ cy = (b : Int) + 1
          · rw [hq1.1, hq1.2, hg1E]
          · rw [hg1 _ _ hq1 hq2, hg0 _ _ hbc hq0 hq1]
    -- assembling the full scan
    have hscan : scanFrom W H = rowsBetween W (b + 2) d ++ scanFrom W (b + 2) := by
      rw [hd]
      exact scanFrom_decomp W (b + 2) d
    have hrow1 : colsFrom (((b + 1 : Nat)) : Int) 0 W
        = colsFrom ((b : Int) + 1) 0 a ++ (((a : Int), (b : Int) + 1)
          :: colsFrom ((b : Int) + 1) (a + 1) R) := by
      rw [hry1, hR, colsFrom_append ((b : Int) + 1) (R + 1) a 0, Nat.zero_add]
      rfl
    have hrow0 : colsFrom ((b : Int)) 0 W
        = colsFrom ((b : Int)) 0 a ++ (((a : Int), (b : Int))
          :: colsFrom ((b : Int)) (a + 1) R) := by
      rw [hR, colsFrom_append ((b : Int)) (R + 1) a 0, Nat.zero_add]
      rfl
    have hlist : scanFrom W (b + 2)
        = colsFrom ((b : Int) + 1) 0 a ++ (((a : Int), (b : Int) + 1)
          :: (colsFrom ((b : Int) + 1) (a + 1) R
            ++ (colsFrom ((b : Int)) 0 a ++ (((a : Int), (b : Int))
              :: (colsFrom ((b : Int)) (a + 1) R ++ scanFrom W b))))) := by
      show colsFrom (((b + 1 : Nat)) : Int) 0 W ++ scanFrom W (b + 1) = _
      rw [hrow1]
      rw [show scanFrom W (b + 1) = colsFrom ((b : Int)) 0 W ++ scanFrom W b from rfl, hrow0]
      rw [List.append_assoc, List.cons_append, List.append_assoc, List.cons_append]
    -- empty-region folds
    have hfold_rows : (rowsBetween W (b + 2) d).foldl (tickCell rng) (s0, n) = (s0, n) := by
      apply foldl_tick_id
      intro p hp
      obtain ⟨j, r, hj, hk, hr, rfl⟩ := mem_rowsBetween hp
      have hbp := hbnd0 j r hj (by omega)
      refine ⟨hbp, ?_⟩
      rw [hg0 _ _ hbp (by intro hc; have := hc.2; omega)
        (by intro hc; have := hc.2; omega)]
      rfl
    have hfold_pre1 : (colsFrom ((b : Int) + 1) 0 a).foldl (tickCell rng) (s0, n)
        = (s0, n) := by
      apply foldl_tick_id
      intro p hp
      obtain ⟨j, _, hj2, rfl⟩ := mem_colsFrom hp
      have hbp : IsInBounds s0 ((j : Int)) ((b : Int) + 1) = true := by
        have := hbnd0 j (b + 1) (by omega) (by omega)
        rw [hry1] at this
        exact this
      refine ⟨hbp, ?_⟩
      rw [hg0 _ _ hbp (by intro hc; have := hc.1; omega) (by intro hc; have := hc.1; omega)]
      rfl
    have hfold_post1 : (colsFrom ((b : Int) + 1) (a + 1) R).foldl (tickCell rng) (s1, n)
        = (s1, n) := by
      apply foldl_tick_id
      intro p hp
      obtain ⟨j, hj1, hj2, rfl⟩ := mem_colsFrom hp
      have hbp : IsInBounds s0 ((j : Int)) ((b : Int) + 1) = true := by
        have := hbnd0 j (b + 1) (by omega) (by omega)
        rw [hry1] at this
        exact this
      refine ⟨by rw [hbc1]; exact hbp, ?_⟩
      rw [hg1 _ _ (by intro hc; have := hc.1; omega) (by intro hc; have := hc.2; omega),
        hg0 _ _ hbp (by intro hc; have := hc.1; omega) (by intro hc; have := hc.1; omega)]
      rfl
    have hfold_pre0 : (colsFrom ((b : Int)) 0 a).foldl (tickCell rng) (s1, n)
        = (s1, n) := by
      apply foldl_tick_id
      intro p hp
      obtain ⟨j, _, hj2, rfl⟩ := mem_colsFrom hp
      have hbp : IsInBounds s0 ((j : Int)) ((b : Int)) = true := hbnd0 j b (by omega) (by omega)
      refine ⟨by rw [hbc1]; exact hbp, ?_⟩
      rw [hg1 _ _ (by intro hc; have := hc.1; omega) (by intro hc; have := hc.1; omega),
        hg0 _ _ hbp (by intro hc; have := hc.1; omega) (by intro hc; have := hc.1; omega)]
      rfl
    have hbc2 : ∀ cx cy, IsInBounds s2 cx cy = IsInBounds s0 cx cy := by
      intro cx cy
      exact isInBounds_congr hd2 cx cy
    have hfold_post0 : (colsFrom ((b : Int)) (a + 1) R).foldl (tickCell rng) (s2, n)
        = (s2, n) := by
      apply foldl_tick_id
      intro p hp
      obtain ⟨j, hj1, hj2, rfl⟩ := mem_colsFrom hp
      have hbp : IsInBounds s0 ((j : Int)) ((b : Int)) = true := hbnd0 j b (by omega) (by omega)
      refine ⟨by rw [hbc2]; exact hbp, ?_⟩
      rw [hg2 _ _ hbp, if_neg (by intro hc; have := hc.1; omega)]
      rfl
    have hfold_rest : (scanFrom W b).foldl (tickCell rng) (s2, n) = (s2, n) := by
      apply foldl_tick_id
      intro p hp
      obtain ⟨j, r, hj, hr, rfl⟩ := mem_scanFrom hp
      have hbp : IsInBounds s0 ((j : Int)) ((r : Int)) = true := hbnd0 j r hj (by omega)
      refine ⟨by rw [hbc2]; exact hbp, ?_⟩
      rw [hg2 _ _ hbp, if_neg (by intro hc; have := hc.2; omega)]
      rfl
    have hfinal : Update rng s0 n = (s2, n) := by
      rw [hupd, hscan, List.foldl_append, hfold_rows, hlist, List.foldl_append,
        hfold_pre1, List.foldl_cons, hstep1, List.foldl_append, hfold_post1,
        List.foldl_append, hfold_pre0, List.foldl_cons, hstep2, List.foldl_append,
        hfold_post0, hfold_rest]
    rw [hfinal]
    have hmin : min ((b : Int) + 2) ((H : Int) - 1) = (b : Int) + 2 := by
      rw [min_eq_left]
      omega
    refine ⟨(hd2.1).symm ▸ rfl, (hd2.2.1).symm ▸ rfl, ?_⟩
    intro cx cy hbc
    rw [hbc2] at hbc
    rw [hg2 _ _ hbc, hmin]
  · -- Case B: the sand is in the bottom row; it is wetted in place.
    set s2 : Sim := Set (Set s0 (a : Int) ((b : Int) + 1) MaterialType.WetSand 1)
      (a : Int) (b : Int) MaterialType.Empty 0 with hs2
    have hd02 : SameDims s0 (Set s0 (a : Int) ((b : Int) + 1) MaterialType.WetSand 1) :=
      dims_Set _ _ _ _ _
    have hd2 : SameDims s0 s2 :=
      sameDims_trans hd02 (dims_Set _ _ _ _ _)
    have hwf2 : WF s2 := wf_of_sameDims hd2 hwf0
    have hb1' : IsInBounds s0 (a : Int) ((b : Int) + 1) = true := by
      have := hbnd0 a (b + 1) haW (by omega)
      rw [hry1] at this
      exact this
    have hbc2 : ∀ cx cy, IsInBounds s2 cx cy = IsInBounds s0 cx cy := by
      intro cx cy
      exact isInBounds_congr hd2 cx cy
    -- the sand at the bottom row is inert
    have hstep1 : tickCell rng (s0, n) ((a : Int), (b : Int) + 1) = (s0, n) := by
      unfold tickCell
      have hread : ((s0, n).1.grid.getD
          (GetIndex (s0, n).1 ((a : Int), (b : Int) + 1).1 ((a : Int), (b : Int) + 1).2).toNat
          defaultCell).type = MaterialType.Sand := by
        show (s0.grid.getD (GetIndex s0 (a : Int) ((b : Int) + 1)).toNat defaultCell).type
          = MaterialType.Sand
        rw [← get_inb hb1', hgS]
      rw [hread]
      show UpdateSand rng s0 n (a : Int) ((b : Int) + 1) = (s0, n)
      apply updateSand_bottom
      show (s0.height : Int) ≤ (b : Int) + 1 + 1
      show ((H : Nat) : Int) ≤ (b : Int) + 1 + 1
      omega
    -- the water is absorbed by the sand below via offset (0, 1)
    have hm01 : wetMatch s0 (a : Int) (b : Int) (0, 1) = true := by
      unfold wetMatch
      dsimp only
      rw [show (a : Int) + 0 = (a : Int) by ring, hb1', hgS]
      rfl
    have hfind : wetOffsets.find? (wetMatch s0 (a : Int) (b : Int)) = some (0, 1) := by
      unfold wetOffsets
      rw [List.find?_cons_of_pos _ hm01]
    have htws : TryWetSand s0 (a : Int) (b : Int) = (s2, true) := by
      rw [tryWetSand_char, hfind]
      unfold wetAction
      dsimp only
      rw [show (a : Int) + 0 = (a : Int) by ring, hgS]
      rw [if_pos rfl]
    have hstep2 : tickCell rng (s0, n) ((a : Int), (b : Int)) = (s2, n) := by
      unfold tickCell
      have hread : ((s0, n).1.grid.getD
          (GetIndex (s0, n).1 ((a : Int), (b : Int)).1 ((a : Int), (b : Int)).2).toNat
          defaultCell).type = MaterialType.Water := by
        show (s0.grid.getD (GetIndex s0 (a : Int) (b : Int)).toNat defaultCell).type
          = MaterialType.Water
        rw [← get_inb (hbnd0 a b haW (by omega)), hgW]
      rw [hread]
      show UpdateWater rng s0 n (a : Int) (b : Int) = (s2, n)
      unfold UpdateWater
      rw [htws]
      rfl
    have hg2 : ∀ (cx cy : Int), IsInBounds s0 cx cy = true →
        Get s2 cx cy = (if cx = (a : Int) ∧ cy = (b : Int) + 1
          then { type := MaterialType.WetSand, soak := 1 } else defaultCell) := by
      intro cx cy hbc
      by_cases hq1 : cx = (a : Int) ∧ cy = (b : Int) + 1
      · rw [if_pos hq1, hs2, hq1.1, hq1.2, get_Set_ne (by omega),
          get_Set_self hwf0 hb1']
      · rw [if_neg hq1]
        by_cases hq0 : cx = (a : Int) ∧ cy = (b : Int)
        · rw [hq0.1, hq0.2, hs2,
            get_Set_self (wf_of_sameDims hd02 hwf0)
              (by rw [isInBounds_congr hd02]; exact hbnd0 a b haW (by omega))]
          rfl
        · rw [hs2, get_Set_ne hq0, get_Set_ne hq1, hg0 _ _ hbc hq0 hq1]
    have hrow1 : colsFrom (((b + 1 : Nat)) : Int) 0 W
        = colsFrom ((b : Int) + 1) 0 a ++ (((a : Int), (b : Int) + 1)
          :: colsFrom ((b : Int) + 1) (a + 1) R) := by
      rw [hry1, hR, colsFrom_append ((b : Int) + 1) (R + 1) a 0, Nat.zero_add]
      rfl
    have hrow0 : colsFrom ((b : Int)) 0 W
        = colsFrom ((b : Int)) 0 a ++ (((a : Int), (b : Int))
          :: colsFrom ((b : Int)) (a + 1) R) := by
      rw [hR, colsFrom_append ((b : Int)) (R + 1) a 0, Nat.zero_add]
      rfl
    have hlist : scanFrom W H
        = colsFrom ((b : Int) + 1) 0 a ++ (((a : Int), (b : Int) + 1)
          :: (colsFrom ((b : Int) + 1) (a + 1) R
            ++ (colsFrom ((b : Int)) 0 a ++ (((a : Int), (b : Int))
              :: (colsFrom ((b : Int)) (a + 1) R ++ scanFrom W b))))) := by
      rw [← hcase]
      show colsFrom (((b + 1 : Nat)) : Int) 0 W ++ scanFrom W (b + 1) = _
      rw [hrow1]
      rw [show scanFrom W (b + 1) = colsFrom ((b : Int)) 0 W ++ scanFrom W b from rfl, hrow0]
      rw [List.append_assoc, List.cons_append, List.append_assoc, List.cons_append]
    have hfold_pre1 : (colsFrom ((b : Int) + 1) 0 a).foldl (tickCell rng) (s0, n)
        = (s0, n) := by
      apply foldl_tick_id
      intro p hp
      obtain ⟨j, _, hj2, rfl⟩ := mem_colsFrom hp
      have hbp : IsInBounds s0 ((j : Int)) ((b : Int) + 1) = true := by
        have := hbnd0 j (b + 1) (by omega) (by omega)
        rw [hry1] at this
        exact this
      refine ⟨hbp, ?_⟩
      rw [hg0 _ _ hbp (by intro hc; have := hc.1; omega) (by intro hc; have := hc.1; omega)]
      rfl
    have hfold_post1 : (colsFrom ((b : Int) + 1) (a + 1) R).foldl (tickCell rng) (s0, n)
        = (s0, n) := by
      apply foldl_tick_id
      intro p hp
      obtain ⟨j, hj1, hj2, rfl⟩ := mem_colsFrom hp
      have hbp : IsInBounds s0 ((j : Int)) ((b : Int) + 1) = true := by
        have := hbnd0 j (b + 1) (by omega) (by omega)
        rw [hry1] at this
        exact this
      refine ⟨hbp, ?_⟩
      rw [hg0 _ _ hbp (by intro hc; have := hc.1; omega) (by intro hc; have := hc.1; omega)]
      rfl
    have hfold_pre0 : (colsFrom ((b : Int)) 0 a).foldl (tickCell rng) (s0, n)
        = (s0, n) := by
      apply foldl_tick_id
      intro p hp
      obtain ⟨j, _, hj2, rfl⟩ := mem_colsFrom hp
      have hbp : IsInBounds s0 ((j : Int)) ((b : Int)) = true := hbnd0 j b (by omega) (by omega)
      refine ⟨hbp, ?_⟩
      rw [hg0 _ _ hbp (by intro hc; have := hc.1; omega) (by intro hc; have := hc.1; omega)]
      rfl
    have hfold_post0 : (colsFrom ((b : Int)) (a + 1) R).foldl (tickCell rng) (s2, n)
        = (s2, n) := by
      apply foldl_tick_id
      intro p hp
      obtain ⟨j, hj1, hj2, rfl⟩ := mem_colsFrom hp
      have hbp : IsInBounds s0 ((j : Int)) ((b : Int)) = true := hbnd0 j b (by omega) (by omega)
      refine ⟨by rw [hbc2]; exact hbp, ?_⟩
      rw [hg2 _ _ hbp, if_neg (by intro hc; have := hc.1; omega)]
      rfl
    have hfold_rest : (scanFrom W b).foldl (tickCell rng) (s2, n) = (s2, n) := by
      apply foldl_tick_id
      intro p hp
      obtain ⟨j, r, hj, hr, rfl⟩ := mem_scanFrom hp
      have hbp : IsInBounds s0 ((j : Int)) ((r : Int)) = true := hbnd0 j r hj (by omega)
      refine ⟨by rw [hbc2]; exact hbp, ?_⟩
      rw [hg2 _ _ hbp, if_neg (by intro hc; have := hc.2; omega)]
      rfl
    have hfinal : Update rng s0 n = (s2, n) := by
      rw [hupd, hlist, List.foldl_append, hfold_pre1, List.foldl_cons, hstep1,
        List.foldl_append, hfold_post1, List.foldl_append, hfold_pre0, List.foldl_cons,
        hstep2, List.foldl_append, hfold_post0, hfold_rest]
    rw [hfinal]
    have hmin : min ((b : Int) + 2) ((H : Int) - 1) = (b : Int) + 1 := by
      rw [min_eq_right (by omega)]
      omega
    refine ⟨(hd2.1).symm ▸ rfl, (hd2.2.1).symm ▸ rfl, ?_⟩
    intro cx cy hbc
    rw [hbc2] at hbc
    rw [hg2 _ _ hbc, hmin]

/-- Counterexample to C4 as stated: on a 1×2 grid with `Water` at `(0,0)`
above `Sand` at `(0,1)`, one tick does not swap the two cells — the water
is absorbed and the sand becomes `WetSand` with soak 1. -/
theorem c4_water_above_sand_counterexample :
    Get (Update rngTrue (twoCellGrid 1 2 0 0) 0).1 0 0
        ≠ { type := MaterialType.Sand, soak := 0 } ∧
      Get (Update rngTrue (twoCellGrid 1 2 0 0) 0).1 0 1
        ≠ { type := MaterialType.Water, soak := 0 } ∧
      Get (Update rngTrue (twoCellGrid 1 2 0 0) 0).1 0 0 = defaultCell ∧
      Get (Update rngTrue (twoCellGrid 1 2 0 0) 0).1 0 1
        = { type := MaterialType.WetSand, soak := 1 } := by
  refine ⟨by decide, by decide, by decide, by decide⟩

/-- Witness for C4 at a concrete instance of the amended claim. -/
theorem c4_water_above_sand_amended_witness :
    ((0 : Int) ≤ 0 ∧ (0 : Int) < 1 ∧ (0 : Int) ≤ 0 ∧ (0 : Int) + 1 < 2) ∧
      (Update rngTrue (twoCellGrid 1 2 0 0) 0).1.width = 1 ∧
      Get (Update rngTrue (twoCellGrid 1 2 0 0) 0).1 0 1
        = (if (0 : Int) = 0 ∧ (1 : Int) = min ((0 : Int) + 2) (2 - 1)
           then { type := MaterialType.WetSand, soak := 1 }
           else defaultCell) :=
  ⟨⟨by decide, by decide, by decide, by decide⟩,
   (c4_water_above_sand_amended rngTrue 0 1 2 0 0 (by decide) (by decide) (by decide)
     (by decide)).1,
   (c4_water_above_sand_amended rngTrue 0 1 2 0 0 (by decide) (by decide) (by decide)
     (by decide)).2.2 0 1 (by decide)⟩

/-- Witness for C7 at a concrete haptic state. -/
theorem c7_rail_clamp_witness :
    exHap.currentMode = ControlMode.Mode_1DOF ∧
      exHap.currentAxis = AxisMode.X_Axis ∧
      exHap.hapkitScale = 500 ∧
      ((HapticUpdate id exHap (Vec2.mk (exHap.anchorPos.x + 1000) 30) 0 true exSand1).1.rawInputVal
          = 0.08 ∧
        (0.08 : ℚ) ≠ 2 ∧
        (HapticUpdate id exHap (Vec2.mk (exHap.anchorPos.x + 1000) 30) 0 true exSand1).1.devicePos.y
          = exHap.anchorPos.y ∧
        (HapticUpdate id exHap (Vec2.mk (exHap.anchorPos.x + 1000) 30) 0 true exSand1).1.devicePos.x
          = exHap.anchorPos.x +
              (HapticUpdate id exHap (Vec2.mk (exHap.anchorPos.x + 1000) 30) 0 true exSand1).1.rawInputVal
                * exHap.hapkitScale) :=
  ⟨rfl, rfl, rfl, c7_rail_clamp id exHap exSand1 30 0 rfl rfl rfl⟩

end Comphapt
